import Mathlib

/-!
# The POST /mcp handler of `server.js`

A shallow embedding of the JSON-RPC bridge in `src/server.js`: the envelope
classification (lines 20-33), the method switch (lines 35-154), the
`tools/call` body with its inner `try`/`catch` (lines 78-146) and the outer
`catch` (lines 155-162).

Conventions of the embedding:

* a JavaScript value that can be `undefined` is an `Option JVal`, with `none`
  standing for `undefined`;
* a thrown JavaScript exception is a `JsError`, of which only `message` is
  ever read by the program;
* the archival service is an input of the handler: a function from the
  outbound call to what `fetch` does with it;
* JSON numbers are modelled by integers (the integer-valued numbers below
  `10^21` in magnitude, whose JavaScript string form is the decimal one);
* console logging is left out, except for the one log line whose template
  literal can throw (line 23).
-/

namespace McpBridge

/-! ## JSON values -/

/-- A value produced by `JSON.parse`. An object is an association list in
which the first binding of a key is the one the object holds. -/
inductive JVal where
  | null
  | bool (b : Bool)
  | num (n : Int)
  | str (s : String)
  | arr (items : List JVal)
  | obj (fields : List (String × JVal))

/-- A thrown exception; the handler only reads `err.message`. -/
structure JsError where
  message : String

/-- JavaScript truthiness of a JSON value: `null`, `false`, `0` and `""` are
falsy, every array and object is truthy. -/
def truthyVal : JVal → Bool
  | .null => false
  | .bool b => b
  | .num n => decide (n ≠ 0)
  | .str s => decide (s ≠ "")
  | .arr _ => true
  | .obj _ => true

/-- Truthiness of a possibly `undefined` value (`undefined` is falsy). -/
def truthy : Option JVal → Bool
  | none => false
  | some v => truthyVal v

/-- Property read `v.key` on a value that is not `null`, for the property
names this program reads (`name`, `arguments`, `messages`, `role`, `content`,
`url` and the four envelope fields): none of them is defined on a prototype,
so the read is the own data property of an object and `undefined` on an
array, string, number or boolean. -/
def prop : JVal → String → Option JVal
  | .obj fields, key => fields.lookup key
  | _, _ => none

/-- Member access `v.key`, which throws a `TypeError` on `null`. -/
def getMember (v : JVal) (key : String) : Except JsError (Option JVal) :=
  match v with
  | .null => .error ⟨"Cannot read properties of null (reading \x27" ++ key ++ "\x27)"⟩
  | _ => .ok (prop v key)

/-- The expression `x || null` (lines 30 and 159). -/
def orNull : Option JVal → JVal
  | some v => if truthyVal v then v else .null
  | none => .null

/-- The expression `x || {}` (lines 79 and 88). -/
def orEmptyObject : Option JVal → JVal
  | some v => if truthyVal v then v else .obj []
  | none => .obj []

/-- Strict equality `x === "literal"` against a string literal. -/
def strictEqStr : Option JVal → String → Bool
  | some (.str s), lit => s == lit
  | _, _ => false

/-- The test `Array.isArray(x)`. -/
def isArray : Option JVal → Bool
  | some (.arr _) => true
  | _ => false

/-- `Array.prototype.join` on strings that are already computed. -/
def joinStrings (sep : String) : List String → String
  | [] => ""
  | [s] => s
  | s :: t :: rest => s ++ sep ++ joinStrings sep (t :: rest)

mutual
/-- The abstract operation `ToString` on a JSON value, as a template literal
applies it. An array is joined with `,`; a plain object gives
`[object Object]` through `Object.prototype.toString`, unless it has an own
`toString` key: a JSON value is never callable, so `OrdinaryToPrimitive`
finds no usable method and throws a `TypeError`. -/
def toStr : JVal → Except JsError String
  | .null => .ok "null"
  | .bool b => .ok (if b then "true" else "false")
  | .num n => .ok (toString n)
  | .str s => .ok s
  | .arr items => joinItems items
  | .obj fields =>
    if (fields.lookup "toString").isSome then
      .error ⟨"Cannot convert object to primitive value"⟩
    else .ok "[object Object]"
/-- The body of `Array.prototype.join` with the separator `,`: a `null`
element contributes the empty string, any other its `ToString`. -/
def joinItems : List JVal → Except JsError String
  | [] => .ok ""
  | [.null] => .ok ""
  | [x] => toStr x
  | .null :: rest =>
    match joinItems rest with
    | .ok t => .ok ("" ++ "," ++ t)
    | .error e => .error e
  | x :: rest =>
    match toStr x with
    | .error e => .error e
    | .ok s =>
      match joinItems rest with
      | .ok t => .ok (s ++ "," ++ t)
      | .error e => .error e
end

/-- The substitution `${x}` of a template literal, where `x` may be
`undefined`. -/
def templateStr : Option JVal → Except JsError String
  | none => .ok "undefined"
  | some v => toStr v

/-! ## The inbound envelope and the outbound reply -/

/-- The four bindings of line 18, `const { method, params, id, jsonrpc } =
req.body`; `none` is a field the body does not have. -/
structure Envelope where
  method : Option JVal
  params : Option JVal
  id : Option JVal
  jsonrpc : Option JVal

/-- Line 18 on a decoded body. Destructuring `null` throws before the `try`
is entered; an array, string, number or boolean has none of the four
properties. -/
def destructure : JVal → Option Envelope
  | .null => none
  | body => some
    { method := prop body "method", params := prop body "params",
      id := prop body "id", jsonrpc := prop body "jsonrpc" }

/-- What `res` was told to send: `res.status(s).end()` has no body,
`res.status(s).json(v)` has the serialised `v` (`res.json(v)` alone uses
status 200). -/
structure HttpReply where
  status : Nat
  body : Option JVal

/-- An object literal as `res.json` serialises it: `JSON.stringify` leaves
out every property whose value is `undefined`. -/
def jsonObject (fields : List (String × Option JVal)) : JVal :=
  .obj (fields.filterMap fun kv => kv.2.map fun v => (kv.1, v))

/-- The literal `{ jsonrpc: "2.0", id, result }`. -/
def resultEnvelope (id : Option JVal) (result : JVal) : JVal :=
  jsonObject [("jsonrpc", some (.str "2.0")), ("id", id), ("result", some result)]

/-- The literal `{ jsonrpc: "2.0", id, error: { code, message } }`. -/
def errorEnvelope (id : Option JVal) (code : Int) (message : String) : JVal :=
  jsonObject [("jsonrpc", some (.str "2.0")), ("id", id),
    ("error", some (jsonObject [("code", some (.num code)), ("message", some (.str message))]))]

/-! ## The archival collaborator -/

/-- The process configuration read by the handler: `process.env.BASE_URL`. -/
structure Env where
  baseUrl : Option String

/-- One part appended to the form with a filename and a content type. -/
structure Attachment where
  content : String
  filename : String
  contentType : String
deriving DecidableEq

/-- The call of lines 104-118: a POST of a form with the two fields `htmlDoc`
and `isMCP`. -/
structure OutboundCall where
  url : String
  httpMethod : String
  htmlDoc : Attachment
  isMCP : String
deriving DecidableEq

/-- The `response` object a resolved `fetch` gives: its status line and what
reading the body as text, or as JSON, gives (either read can throw). -/
structure RemoteResponse where
  status : Nat
  statusText : String
  text : Except JsError String
  json : Except JsError JVal

/-- The getter `response.ok`: a status in the range 200-299. -/
def RemoteResponse.ok (r : RemoteResponse) : Bool :=
  decide (200 ≤ r.status) && decide (r.status ≤ 299)

/-- What `await fetch(...)` does: it throws, or it gives a response. -/
inductive FetchOutcome where
  | rejected (err : JsError)
  | resolved (response : RemoteResponse)

/-- The result of one run of the handler: the reply sent and the outbound
calls made, in order. -/
structure Outcome where
  reply : HttpReply
  calls : List OutboundCall

/-! ## The `tools/call` body -/

/-- The callback of `messages.map` (line 100): one line of markup per
message. Reading `m.role` throws on a `null` element. -/
def renderMessage (m : JVal) : Except JsError String :=
  match getMember m "role" with
  | .error e => .error e
  | .ok role =>
    match templateStr role with
    | .error e => .error e
    | .ok r =>
      match getMember m "content" with
      | .error e => .error e
      | .ok content =>
        match templateStr content with
        | .error e => .error e
        | .ok c => .ok ("<p><strong>" ++ r ++ ":</strong> " ++ c ++ "</p>")

/-- The call `messages.map(callback)`: the callback runs on the elements in
order and the first exception ends the loop. -/
def mapMessages : List JVal → Except JsError (List String)
  | [] => .ok []
  | m :: rest =>
    match renderMessage m with
    | .error e => .error e
    | .ok line =>
      match mapMessages rest with
      | .error e => .error e
      | .ok lines => .ok (line :: lines)

/-- Lines 99-101: `messages.map(...).join("\n")`. -/
def renderHtml (messages : List JVal) : Except JsError String :=
  match mapMessages messages with
  | .error e => .error e
  | .ok lines => .ok (joinStrings "\n" lines)

/-- Lines 104-118: the form and the request handed to `fetch`. -/
def buildCall (env : Env) (html : String) : OutboundCall :=
  { url := (match env.baseUrl with | some b => b | none => "undefined") ++ "/api/conversation",
    httpMethod := "POST",
    htmlDoc := { content := html, filename := "conversation.html", contentType := "text/html" },
    isMCP := "true" }

/-- Lines 120-136 inside the inner `try`, after `fetch` has settled: the
`result` payload of the reply, or the exception that reaches the inner
`catch`. -/
def afterFetch : FetchOutcome → Except JsError JVal
  | .rejected err => .error err
  | .resolved r =>
    if !r.ok then
      match r.text with
      | .error e => .error e
      | .ok text =>
        .error ⟨"Remote API error: " ++ toString r.status ++ " " ++ r.statusText ++ " - " ++ text⟩
    else
      match r.json with
      | .error e => .error e
      | .ok data =>
        match getMember data "url" with
        | .error e => .error e
        | .ok url =>
          match templateStr url with
          | .error e => .error e
          | .ok u =>
            .ok (jsonObject
              [("content", some (.arr [jsonObject
                  [("type", some (.str "text")),
                   ("text", some (.str ("✅ Conversation saved to AIArchives!\n🔗 " ++ u)))]])),
               ("remoteResponse", some data)])

/-- The reply of the inner `catch` (lines 138-145). -/
def internalErrorReply (id : Option JVal) (err : JsError) : HttpReply :=
  { status := 500, body := some (errorEnvelope id (-32000) err.message) }

/-- The inner `try`/`catch` of lines 97-145. -/
def saveConversation (env : Env) (fetch : OutboundCall → FetchOutcome)
    (id : Option JVal) (messages : List JVal) : Outcome :=
  match renderHtml messages with
  | .error e => { reply := internalErrorReply id e, calls := [] }
  | .ok html =>
    let call := buildCall env html
    match afterFetch (fetch call) with
    | .error e => { reply := internalErrorReply id e, calls := [call] }
    | .ok result => { reply := { status := 200, body := some (resultEnvelope id result) }, calls := [call] }

/-- The case `"tools/call"` (lines 78-146). The template literal of line 84
is evaluated outside the inner `try`, so what it throws leaves the case. -/
def toolsCall (env : Env) (fetch : OutboundCall → FetchOutcome)
    (id params : Option JVal) : Except JsError Outcome :=
  let p := orEmptyObject params
  let name := prop p "name"
  let args := prop p "arguments"
  if !strictEqStr name "saveConversation" then
    match templateStr name with
    | .error e => .error e
    | .ok n =>
      .ok { reply := { status := 400, body := some (errorEnvelope id (-32601) ("Unknown tool: " ++ n)) },
            calls := [] }
  else
    match prop (orEmptyObject args) "messages" with
    | some (.arr messages) => .ok (saveConversation env fetch id messages)
    | _ =>
      .ok { reply := { status := 400,
                       body := some (errorEnvelope id (-32602) "Invalid arguments for saveConversation") },
            calls := [] }

/-! ## The handler -/

/-- The static result of `initialize` (lines 40-44). -/
def initializeResult : JVal :=
  jsonObject
    [("protocolVersion", some (.str "2025-06-18")),
     ("capabilities", some (jsonObject [("tools", some (jsonObject []))])),
     ("serverInfo", some (jsonObject
        [("name", some (.str "Claude → AIArchives Bridge")), ("version", some (.str "1.1.0"))]))]

/-- The static result of `tools/list` (lines 51-75). -/
def toolsListResult : JVal :=
  jsonObject
    [("tools", some (.arr [jsonObject
      [("name", some (.str "saveConversation")),
       ("description", some (.str "Saves the current Claude chat to AIArchives.")),
       ("inputSchema", some (jsonObject
         [("type", some (.str "object")),
          ("properties", some (jsonObject
            [("messages", some (jsonObject
              [("type", some (.str "array")),
               ("items", some (jsonObject
                 [("type", some (.str "object")),
                  ("properties", some (jsonObject
                    [("role", some (jsonObject [("type", some (.str "string"))])),
                     ("content", some (jsonObject [("type", some (.str "string"))]))])),
                  ("required", some (.arr [.str "role", .str "content"]))]))]))])),
          ("required", some (.arr [.str "messages"]))]))]]))]

/-- The body of the outer `try` (lines 21-154): the reply and calls it ends
with, or the exception that reaches the outer `catch`. -/
def tryBlock (env : Env) (fetch : OutboundCall → FetchOutcome) (e : Envelope) :
    Except JsError Outcome :=
  if e.id.isNone && truthy e.method then
    match templateStr e.method with
    | .error err => .error err
    | .ok _ => .ok { reply := { status := 204, body := none }, calls := [] }
  else if !truthy e.jsonrpc || !truthy e.method || e.id.isNone then
    .ok { reply := { status := 400,
                     body := some (errorEnvelope (some (orNull e.id)) (-32600) "Invalid Request") },
          calls := [] }
  else if strictEqStr e.method "initialize" then
    .ok { reply := { status := 200, body := some (resultEnvelope e.id initializeResult) }, calls := [] }
  else if strictEqStr e.method "tools/list" then
    .ok { reply := { status := 200, body := some (resultEnvelope e.id toolsListResult) }, calls := [] }
  else if strictEqStr e.method "tools/call" then
    toolsCall env fetch e.id e.params
  else
    match templateStr e.method with
    | .error err => .error err
    | .ok m =>
      .ok { reply := { status := 400, body := some (errorEnvelope e.id (-32601) ("Unknown method: " ++ m)) },
            calls := [] }

/-- The handler of `app.post("/mcp", ...)` on the bindings of line 18: the
outer `try` with its `catch` (lines 20-162). An exception reaches the outer
`catch` only before any outbound call. -/
def mcpHandler (env : Env) (fetch : OutboundCall → FetchOutcome) (e : Envelope) : Outcome :=
  match tryBlock env fetch e with
  | .ok out => out
  | .error err =>
    { reply := { status := 500,
                 body := some (errorEnvelope (some (orNull e.id)) (-32603) err.message) },
      calls := [] }

/-- The handler on a decoded body; `none` when line 18 throws, which is
before the `try` and so without a reply from this handler. -/
def postMcp (env : Env) (fetch : OutboundCall → FetchOutcome) (body : JVal) : Option Outcome :=
  (destructure body).map (mcpHandler env fetch)

/-! ## Reading a reply -/

/-- The top-level field `key` of the JSON body of a reply; `none` when the
reply has no body or the body has no such field. -/
def HttpReply.field (r : HttpReply) (key : String) : Option JVal :=
  match r.body with
  | some b => prop b key
  | none => none

/-- The `code` of the `error` object of a reply, when it has one. -/
def HttpReply.errorCode (r : HttpReply) : Option JVal :=
  match r.field "error" with
  | some err => prop err "code"
  | none => none

/-- The `message` of the `error` object of a reply, when it has one. -/
def HttpReply.errorMessage (r : HttpReply) : Option JVal :=
  match r.field "error" with
  | some err => prop err "message"
  | none => none

/-- A body built by `resultEnvelope` or `errorEnvelope` from an `id` that is
not `undefined`. -/
inductive IsEnvelope : JVal → Prop where
  | result (i r : JVal) : IsEnvelope (resultEnvelope (some i) r)
  | error (i : JVal) (c : Int) (msg : String) : IsEnvelope (errorEnvelope (some i) c msg)

/-- The value reached from `v` by reading the properties `keys` one after
the other; `none` when one of them is not there. -/
def JVal.path : JVal → List String → Option JVal
  | v, [] => some v
  | v, key :: keys =>
    match prop v key with
    | some w => w.path keys
    | none => none

/-- The four kinds of reply the handler sends: no content, a result, an error
of the request (400) and an error of the server (500). -/
inductive ReplyKind : HttpReply → Prop where
  | noContent : ReplyKind { status := 204, body := none }
  | success (i r : JVal) : ReplyKind { status := 200, body := some (resultEnvelope (some i) r) }
  | clientError (i : JVal) (c : Int) (msg : String)
      (hc : c = -32600 ∨ c = -32601 ∨ c = -32602) :
      ReplyKind { status := 400, body := some (errorEnvelope (some i) c msg) }
  | serverError (i : JVal) (c : Int) (msg : String) (hc : c = -32000 ∨ c = -32603) :
      ReplyKind { status := 500, body := some (errorEnvelope (some i) c msg) }

/-- The classification test that lets an envelope through to the switch: the
negation of the condition of line 27. -/
def isRequest (e : Envelope) : Bool :=
  truthy e.jsonrpc && truthy e.method && e.id.isSome

/-! ## The rendering as the specification words it -/

/-- One line of markup, `<p><strong>{role}:</strong> {content}</p>`, with role
and content inserted as they are. -/
def specLine (rc : String × String) : String :=
  "<p><strong>" ++ rc.1 ++ ":</strong> " ++ rc.2 ++ "</p>"

/-- The document for a conversation given as (role, content) pairs: the lines
in input order with a newline between consecutive lines. -/
def specDocument (pairs : List (String × String)) : String :=
  "\n".intercalate (pairs.map specLine)

/-- The message `m` is an object whose `role` and `content` are the strings of
the pair `rc`. -/
def HasRoleContent (m : JVal) (rc : String × String) : Prop :=
  prop m "role" = some (.str rc.1) ∧ prop m "content" = some (.str rc.2)

/-- The `messages` that line 88 reads out of `params`: `(params.arguments ||
{}).messages`. -/
def messagesOf (p : JVal) : Option JVal :=
  prop (orEmptyObject (prop p "arguments")) "messages"

/-! ## Fixtures for the concrete evaluations -/

/-- A configuration with a base address. -/
def sampleEnv : Env := { baseUrl := some "https://archive.example" }

/-- A collaborator that answers 200 with the JSON `{"url":"https://x/y"}`. -/
def stubOk : OutboundCall → FetchOutcome := fun _ =>
  .resolved { status := 200, statusText := "OK", text := .ok "\x7b\"url\":\"https://x/y\"\x7d",
              json := .ok (.obj [("url", .str "https://x/y")]) }

/-- A collaborator that answers 500 with the body text `disk full`, which is
not JSON. -/
def stubFail : OutboundCall → FetchOutcome := fun _ =>
  .resolved { status := 500, statusText := "Internal Server Error", text := .ok "disk full",
              json := .error ⟨"Unexpected token d in JSON at position 0"⟩ }

/-- A collaborator that cannot be reached: `fetch` throws. -/
def stubReject : OutboundCall → FetchOutcome := fun _ =>
  .rejected ⟨"connect ECONNREFUSED"⟩

/-- A collaborator that answers 200 with a body that is not JSON. -/
def stubBadJson : OutboundCall → FetchOutcome := fun _ =>
  .resolved { status := 200, statusText := "OK", text := .ok "<html>",
              json := .error ⟨"Unexpected token < in JSON at position 0"⟩ }

/-- A collaborator that answers 200 with the JSON `null`. -/
def stubNull : OutboundCall → FetchOutcome := fun _ =>
  .resolved { status := 200, statusText := "OK", text := .ok "null", json := .ok .null }

/-! ## Envelope classification -/

/-- C1 (counterexample): an envelope `{jsonrpc:"2.0", method:""}` has its
`method` field present and no `id`, yet the handler answers 400 with the
error envelope -32600, because line 22 tests `method` for truthiness. -/
theorem notification_empty_method_rejected :
    mcpHandler sampleEnv stubOk
        { method := some (.str ""), params := none, id := none, jsonrpc := some (.str "2.0") }
      = { reply := { status := 400,
                     body := some (.obj [("jsonrpc", .str "2.0"), ("id", .null),
                       ("error", .obj [("code", .num (-32600)),
                                       ("message", .str "Invalid Request")])]) },
          calls := [] } := rfl

/-- C1 (amended): when `id` is absent and `method` is truthy and converts to a
string without throwing (as every non-empty string does), the handler answers
204 with no body and makes no outbound call, whatever `jsonrpc` and `params`
are and whether or not the method name is a known one. -/
theorem notification_suppressed (env : Env) (fetch : OutboundCall → FetchOutcome)
    (e : Envelope) (m : JVal) (s : String)
    (hid : e.id = none) (hm : e.method = some m) (ht : truthyVal m = true)
    (hs : toStr m = .ok s) :
    mcpHandler env fetch e = { reply := { status := 204, body := none }, calls := [] } := by
  simp [mcpHandler, tryBlock, hid, hm, truthy, ht, templateStr, hs]

/-- C1 (witness): the notification `{method:"no/such/method"}`, with neither
`id` nor `jsonrpc`, is answered 204 with no body. -/
theorem notification_suppressed_witness :
    truthyVal (.str "no/such/method") = true ∧
    mcpHandler sampleEnv stubOk
        { method := some (.str "no/such/method"), params := some (.num 3), id := none,
          jsonrpc := none }
      = { reply := { status := 204, body := none }, calls := [] } :=
  ⟨by decide, notification_suppressed sampleEnv stubOk _ (.str "no/such/method") "no/such/method"
    rfl rfl (by decide) rfl⟩

/-! ## The shape of every reply -/

/-- Every body the inner `try`/`catch` of `tools/call` sends is an envelope. -/
theorem saveConversation_isEnvelope (env : Env) (fetch : OutboundCall → FetchOutcome)
    (i : JVal) (messages : List JVal) :
    ∃ b, (saveConversation env fetch (some i) messages).reply.body = some b ∧ IsEnvelope b := by
  unfold saveConversation
  split
  · exact ⟨_, rfl, .error _ _ _⟩
  · dsimp only
    split
    · exact ⟨_, rfl, .error _ _ _⟩
    · exact ⟨_, rfl, .result _ _⟩

/-- Every body the case `tools/call` sends is an envelope. -/
theorem toolsCall_isEnvelope (env : Env) (fetch : OutboundCall → FetchOutcome)
    (i : JVal) (params : Option JVal) (out : Outcome)
    (h : toolsCall env fetch (some i) params = .ok out) :
    ∃ b, out.reply.body = some b ∧ IsEnvelope b := by
  unfold toolsCall at h
  dsimp only at h
  split at h
  · split at h
    · cases h
    · cases h; exact ⟨_, rfl, .error _ _ _⟩
  · split at h
    · cases h; exact saveConversation_isEnvelope env fetch i _
    · cases h; exact ⟨_, rfl, .error _ _ _⟩

/-- Every reply of the handler has no body, or a body that is an envelope. -/
theorem mcpHandler_body (env : Env) (fetch : OutboundCall → FetchOutcome) (e : Envelope)
    (body : JVal) (h : (mcpHandler env fetch e).reply.body = some body) : IsEnvelope body := by
  unfold mcpHandler at h
  split at h
  next out hout =>
    unfold tryBlock at hout
    split at hout
    · split at hout
      · cases hout
      · cases hout; cases h
    · split at hout
      · cases hout; cases h; exact .error _ _ _
      · next hnot hreq =>
        obtain ⟨i, hi⟩ : ∃ i, e.id = some i := by
          cases hid : e.id with
          | none => simp [hid] at hreq
          | some i => exact ⟨i, rfl⟩
        rw [hi] at hout
        split at hout
        · cases hout; cases h; exact .result _ _
        · split at hout
          · cases hout; cases h; exact .result _ _
          · split at hout
            · obtain ⟨b, hb, hb2⟩ := toolsCall_isEnvelope env fetch i e.params out hout
              rw [hb] at h; cases h; exact hb2
            · split at hout
              · cases hout
              · cases hout; cases h; exact .error _ _ _
  next err herr =>
    cases h; exact .error _ _ _

/-- C3: whenever the handler sends a JSON body, that body has `jsonrpc` equal
to "2.0", has an `id` field, and has exactly one of `result` and `error`;
and an `error` is an object whose `code` is an integer and whose `message` is
a string. This holds for every envelope and every behaviour of the
collaborator. -/
theorem envelope_exclusive (env : Env) (fetch : OutboundCall → FetchOutcome) (e : Envelope)
    (body : JVal) (h : (mcpHandler env fetch e).reply.body = some body) :
    prop body "jsonrpc" = some (.str "2.0") ∧
    (prop body "id").isSome = true ∧
    (((prop body "result").isSome = true ∧ prop body "error" = none) ∨
      (prop body "result" = none ∧ (prop body "error").isSome = true)) ∧
    ∀ err, prop body "error" = some err →
      ∃ (c : Int) (msg : String),
        prop err "code" = some (.num c) ∧ prop err "message" = some (.str msg) := by
  cases mcpHandler_body env fetch e body h with
  | result i r =>
    refine ⟨rfl, rfl, Or.inl ⟨rfl, rfl⟩, ?_⟩
    intro err herr
    simp [resultEnvelope, jsonObject, prop, List.lookup] at herr
  | error i c msg =>
    refine ⟨rfl, rfl, Or.inr ⟨rfl, rfl⟩, ?_⟩
    intro err herr
    simp [errorEnvelope, jsonObject, prop, List.lookup] at herr
    subst herr
    exact ⟨c, msg, rfl, rfl⟩

/-- C3 (witness): the reply to `{jsonrpc:"2.0", id:7, method:"frobnicate"}`
has a body, and that body has `jsonrpc`, `id` and exactly one of `result` and
`error`. -/
theorem envelope_exclusive_witness :
    (mcpHandler sampleEnv stubOk
        { method := some (.str "frobnicate"), params := none, id := some (.num 7),
          jsonrpc := some (.str "2.0") }).reply.body
      = some (errorEnvelope (some (.num 7)) (-32601) "Unknown method: frobnicate") ∧
    (prop (errorEnvelope (some (.num 7)) (-32601) "Unknown method: frobnicate") "jsonrpc"
        = some (.str "2.0") ∧
      (prop (errorEnvelope (some (.num 7)) (-32601) "Unknown method: frobnicate") "id").isSome
        = true ∧
      (((prop (errorEnvelope (some (.num 7)) (-32601) "Unknown method: frobnicate")
            "result").isSome = true ∧
          prop (errorEnvelope (some (.num 7)) (-32601) "Unknown method: frobnicate") "error"
            = none) ∨
        (prop (errorEnvelope (some (.num 7)) (-32601) "Unknown method: frobnicate") "result"
            = none ∧
          (prop (errorEnvelope (some (.num 7)) (-32601) "Unknown method: frobnicate")
            "error").isSome = true)) ∧
      ∀ err, prop (errorEnvelope (some (.num 7)) (-32601) "Unknown method: frobnicate") "error"
          = some err →
        ∃ (c : Int) (msg : String),
          prop err "code" = some (.num c) ∧ prop err "message" = some (.str msg)) :=
  ⟨rfl,
   envelope_exclusive sampleEnv stubOk
     { method := some (.str "frobnicate"), params := none, id := some (.num 7),
       jsonrpc := some (.str "2.0") }
     (errorEnvelope (some (.num 7)) (-32601) "Unknown method: frobnicate") rfl⟩

/-! ## Id echo -/

/-- On every branch of the switch the reply carries the `id` of the request
unchanged: when the body of the outer `try` ends without throwing on an
envelope that passed the test of line 27, the body sent is an envelope built
from `e.id` itself. -/
theorem dispatch_echoes_id (env : Env) (fetch : OutboundCall → FetchOutcome) (e : Envelope)
    (out : Outcome) (hreq : isRequest e = true) (h : tryBlock env fetch e = .ok out) :
    (∃ r, out.reply.body = some (resultEnvelope e.id r)) ∨
    (∃ c msg, out.reply.body = some (errorEnvelope e.id c msg)) := by
  simp only [isRequest, Bool.and_eq_true] at hreq
  obtain ⟨⟨hj, hm⟩, hi⟩ := hreq
  have hnone : e.id.isNone = false := by
    cases hid : e.id with
    | none => simp [hid] at hi
    | some i => rfl
  unfold tryBlock at h
  rw [if_neg (by simp [hnone]), if_neg (by simp [hnone, hj, hm])] at h
  split at h
  · cases h; exact Or.inl ⟨_, rfl⟩
  · split at h
    · cases h; exact Or.inl ⟨_, rfl⟩
    · split at h
      · unfold toolsCall at h
        dsimp only at h
        split at h
        · split at h
          · cases h
          · cases h; exact Or.inr ⟨_, _, rfl⟩
        · split at h
          · cases h
            unfold saveConversation
            split
            · exact Or.inr ⟨_, _, rfl⟩
            · dsimp only
              split
              · exact Or.inr ⟨_, _, rfl⟩
              · exact Or.inl ⟨_, rfl⟩
          · cases h; exact Or.inr ⟨_, _, rfl⟩
      · split at h
        · cases h
        · cases h; exact Or.inr ⟨_, _, rfl⟩

/-- C2 (failing input): the request `{jsonrpc:"2.0", id:0, method:"tools/call",
params:{name:{toString:0}}}` is answered with `id` null, not 0. Building the
message of line 84 throws, the outer `catch` answers, and its `id || null`
(line 159) turns the falsy id 0 into null. -/
theorem id_zero_lost_in_outer_catch :
    mcpHandler sampleEnv stubOk
        { method := some (.str "tools/call"),
          params := some (.obj [("name", .obj [("toString", .num 0)])]),
          id := some (.num 0), jsonrpc := some (.str "2.0") }
      = { reply := { status := 500,
                     body := some (.obj [("jsonrpc", .str "2.0"), ("id", .null),
                       ("error", .obj [("code", .num (-32603)),
                          ("message", .str "Cannot convert object to primitive value")])]) },
          calls := [] } := rfl

/-! ## Malformed envelopes -/

/-- C4 (counterexample): `{jsonrpc:"1.0", id:1, method:"initialize"}` is not
rejected: line 27 tests `jsonrpc` for truthiness only, so the request is
dispatched and answered 200 with the `initialize` result. -/
theorem wrong_version_dispatched :
    mcpHandler sampleEnv stubOk
        { method := some (.str "initialize"), params := none, id := some (.num 1),
          jsonrpc := some (.str "1.0") }
      = { reply := { status := 200, body := some (resultEnvelope (some (.num 1)) initializeResult) },
          calls := [] } := rfl

/-- C4 (amended): for an envelope with `id` present (and `method` present or
not), a `jsonrpc` that is absent or falsy gives status 400 with error -32600
and no dispatch (no outbound call); a truthy `jsonrpc`, whatever its value,
gives the reply that the same envelope gets with `jsonrpc` equal to "2.0". -/
theorem jsonrpc_checked_for_truthiness (env : Env) (fetch : OutboundCall → FetchOutcome)
    (e : Envelope) (hid : e.id.isSome = true) :
    (truthy e.jsonrpc = false →
      mcpHandler env fetch e
        = { reply := { status := 400,
                       body := some (errorEnvelope (some (orNull e.id)) (-32600) "Invalid Request") },
            calls := [] }) ∧
    (truthy e.jsonrpc = true →
      mcpHandler env fetch e
        = mcpHandler env fetch { e with jsonrpc := some (.str "2.0") }) := by
  have hnone : e.id.isNone = false := by
    cases hi : e.id with
    | none => simp [hi] at hid
    | some i => rfl
  constructor
  · intro hj
    simp [mcpHandler, tryBlock, hnone, hj]
  · intro hj
    have h2 : truthy (some (JVal.str "2.0")) = true := by decide
    simp only [mcpHandler, tryBlock, hj, h2]

/-- C4 (witness): `{id:1, method:"initialize"}` without `jsonrpc` is answered
400 with error -32600. -/
theorem jsonrpc_checked_for_truthiness_witness :
    mcpHandler sampleEnv stubOk
        { method := some (.str "initialize"), params := none, id := some (.num 1),
          jsonrpc := none }
      = { reply := { status := 400,
                     body := some (errorEnvelope (some (.num 1)) (-32600) "Invalid Request") },
          calls := [] } :=
  (jsonrpc_checked_for_truthiness sampleEnv stubOk
    { method := some (.str "initialize"), params := none, id := some (.num 1), jsonrpc := none }
    rfl).1 rfl

/-- C5 (failing input): the envelope `{jsonrpc:"2.0", id:0}`, which has no
`method`, is answered 400 with error -32600 "Invalid Request", but with `id`
null instead of the request id 0: `id || null` on line 30 drops a falsy id. -/
theorem malformed_id_zero_not_echoed :
    mcpHandler sampleEnv stubOk
        { method := none, params := none, id := some (.num 0), jsonrpc := some (.str "2.0") }
      = { reply := { status := 400,
                     body := some (.obj [("jsonrpc", .str "2.0"), ("id", .null),
                       ("error", .obj [("code", .num (-32600)),
                                       ("message", .str "Invalid Request")])]) },
          calls := [] } := rfl

/-! ## Unknown method and unknown tool -/

/-- C6: a request that passes the envelope test (`jsonrpc` and `method`
truthy, `id` present) and whose `method` is a string other than
"initialize", "tools/list" and "tools/call" is answered with status 400 and
the body `{jsonrpc:"2.0", id, error:{code:-32601, message:"Unknown method: "
++ method}}`, with no outbound call. -/
theorem unknown_method (env : Env) (fetch : OutboundCall → FetchOutcome) (e : Envelope)
    (i : JVal) (name : String)
    (hreq : isRequest e = true) (hi : e.id = some i) (hm : e.method = some (.str name))
    (h1 : name ≠ "initialize") (h2 : name ≠ "tools/list") (h3 : name ≠ "tools/call") :
    mcpHandler env fetch e
      = { reply := { status := 400,
                     body := some (.obj [("jsonrpc", .str "2.0"), ("id", i),
                       ("error", .obj [("code", .num (-32601)),
                                       ("message", .str ("Unknown method: " ++ name))])]) },
          calls := [] } := by
  simp only [isRequest, Bool.and_eq_true] at hreq
  obtain ⟨⟨hj, hmt⟩, -⟩ := hreq
  rw [hm] at hmt
  simp [mcpHandler, tryBlock, hi, hj, hmt, hm, strictEqStr, h1, h2, h3, templateStr, toStr,
    errorEnvelope, jsonObject]

/-- C6 (witness): `{jsonrpc:"2.0", id:7, method:"frobnicate"}` yields
`{jsonrpc:"2.0", id:7, error:{code:-32601, message:"Unknown method:
frobnicate"}}` with status 400. -/
theorem unknown_method_witness :
    mcpHandler sampleEnv stubOk
        { method := some (.str "frobnicate"), params := none, id := some (.num 7),
          jsonrpc := some (.str "2.0") }
      = { reply := { status := 400,
                     body := some (.obj [("jsonrpc", .str "2.0"), ("id", .num 7),
                       ("error", .obj [("code", .num (-32601)),
                                       ("message", .str "Unknown method: frobnicate")])]) },
          calls := [] } :=
  unknown_method sampleEnv stubOk _ (.num 7) "frobnicate" rfl rfl rfl
    (by decide) (by decide) (by decide)

/-- C7: a `tools/call` request that passes the envelope test and whose
`params.name` is a string other than "saveConversation" is answered with
status 400, error -32601 and message "Unknown tool: " ++ name, with no
outbound call, whatever the rest of `params` (so whatever `arguments`) is. -/
theorem unknown_tool (env : Env) (fetch : OutboundCall → FetchOutcome) (e : Envelope)
    (i p : JVal) (name : String)
    (hreq : isRequest e = true) (hi : e.id = some i)
    (hm : e.method = some (.str "tools/call"))
    (hp : e.params = some p) (hn : prop p "name" = some (.str name))
    (hne : name ≠ "saveConversation") :
    mcpHandler env fetch e
      = { reply := { status := 400,
                     body := some (.obj [("jsonrpc", .str "2.0"), ("id", i),
                       ("error", .obj [("code", .num (-32601)),
                                       ("message", .str ("Unknown tool: " ++ name))])]) },
          calls := [] } := by
  simp only [isRequest, Bool.and_eq_true] at hreq
  obtain ⟨⟨hj, hmt⟩, -⟩ := hreq
  rw [hm] at hmt
  have hobj : orEmptyObject (some p) = p := by
    cases p <;> simp [prop] at hn
    simp [orEmptyObject, truthyVal]
  simp [mcpHandler, tryBlock, hi, hj, hmt, hm, strictEqStr, toolsCall, hp, hobj, hn, hne,
    templateStr, toStr, errorEnvelope, jsonObject]

/-- C7 (witness): the tool name "doesNotExist", here with arguments that are
themselves invalid (`messages` is a number), yields error -32601 with message
"Unknown tool: doesNotExist" and status 400. -/
theorem unknown_tool_witness :
    mcpHandler sampleEnv stubOk
        { method := some (.str "tools/call"),
          params := some (.obj [("name", .str "doesNotExist"),
                                ("arguments", .obj [("messages", .num 5)])]),
          id := some (.str "a"), jsonrpc := some (.str "2.0") }
      = { reply := { status := 400,
                     body := some (.obj [("jsonrpc", .str "2.0"), ("id", .str "a"),
                       ("error", .obj [("code", .num (-32601)),
                                       ("message", .str "Unknown tool: doesNotExist")])]) },
          calls := [] } :=
  unknown_tool sampleEnv stubOk _ (.str "a")
    (.obj [("name", .str "doesNotExist"), ("arguments", .obj [("messages", .num 5)])])
    "doesNotExist" rfl rfl rfl rfl rfl (by decide)

/-! ## Argument validation -/

/-- A `tools/call` request for "saveConversation" that passes the envelope
test runs the inner `try`/`catch` when `messages` is an array, and is
answered 400 with error -32602 otherwise. -/
theorem saveConversation_call (env : Env) (fetch : OutboundCall → FetchOutcome) (e : Envelope)
    (i p : JVal)
    (hreq : isRequest e = true) (hi : e.id = some i)
    (hm : e.method = some (.str "tools/call"))
    (hp : e.params = some p) (hn : prop p "name" = some (.str "saveConversation")) :
    (∀ ms, messagesOf p = some (.arr ms) →
      mcpHandler env fetch e = saveConversation env fetch (some i) ms) ∧
    (isArray (messagesOf p) = false →
      mcpHandler env fetch e
        = { reply := { status := 400,
                       body := some (errorEnvelope (some i) (-32602)
                         "Invalid arguments for saveConversation") },
            calls := [] }) := by
  simp only [isRequest, Bool.and_eq_true] at hreq
  obtain ⟨⟨hj, hmt⟩, -⟩ := hreq
  rw [hm] at hmt
  have hobj : orEmptyObject (some p) = p := by
    cases p <;> simp [prop] at hn
    simp [orEmptyObject, truthyVal]
  constructor
  · intro ms hms
    unfold messagesOf at hms
    simp [mcpHandler, tryBlock, hi, hj, hmt, hm, strictEqStr, toolsCall, hp, hobj, hn, hms]
  · intro hms
    unfold messagesOf at hms
    cases hv : prop (orEmptyObject (prop p "arguments")) "messages" with
    | none =>
      simp [mcpHandler, tryBlock, hi, hj, hmt, hm, strictEqStr, toolsCall, hp, hobj, hn, hv]
    | some v =>
      cases v with
      | arr ms => rw [hv] at hms; simp [isArray] at hms
      | _ =>
        simp [mcpHandler, tryBlock, hi, hj, hmt, hm, strictEqStr, toolsCall, hp, hobj, hn, hv]

/-- The inner `try`/`catch` never answers with error -32602: its reply is a
result or error -32000. -/
theorem saveConversation_not_invalid_params (env : Env) (fetch : OutboundCall → FetchOutcome)
    (i : JVal) (ms : List JVal) :
    (saveConversation env fetch (some i) ms).reply.errorCode ≠ some (.num (-32602)) := by
  unfold saveConversation
  split
  · simp [internalErrorReply, HttpReply.errorCode, HttpReply.field, errorEnvelope, jsonObject,
      prop, List.lookup]
  · dsimp only
    split
    · simp [internalErrorReply, HttpReply.errorCode, HttpReply.field, errorEnvelope, jsonObject,
        prop, List.lookup]
    · simp [HttpReply.errorCode, HttpReply.field, resultEnvelope, jsonObject, prop, List.lookup]

/-- The inner `try`/`catch` makes exactly one outbound call, carrying the
rendered document, whenever rendering does not throw. -/
theorem saveConversation_calls (env : Env) (fetch : OutboundCall → FetchOutcome)
    (id : Option JVal) (ms : List JVal) (html : String) (h : renderHtml ms = .ok html) :
    (saveConversation env fetch id ms).calls = [buildCall env html] := by
  unfold saveConversation
  rw [h]
  dsimp only
  split <;> rfl

/-- C8: for a `tools/call` request for "saveConversation" that passes the
envelope test, the reply has error code -32602 if and only if
`params.arguments.messages` is not an array (absent included); in that case
the status is 400 and no outbound call is made, while an array, the empty one
included, passes validation and runs the tool body, which for the empty array
hands the empty document to the collaborator. -/
theorem bad_arguments (env : Env) (fetch : OutboundCall → FetchOutcome) (e : Envelope)
    (i p : JVal)
    (hreq : isRequest e = true) (hi : e.id = some i)
    (hm : e.method = some (.str "tools/call"))
    (hp : e.params = some p) (hn : prop p "name" = some (.str "saveConversation")) :
    ((mcpHandler env fetch e).reply.errorCode = some (.num (-32602)) ↔
      isArray (messagesOf p) = false) ∧
    (isArray (messagesOf p) = false →
      (mcpHandler env fetch e).reply.status = 400 ∧ (mcpHandler env fetch e).calls = []) ∧
    (∀ ms, messagesOf p = some (.arr ms) →
      mcpHandler env fetch e = saveConversation env fetch (some i) ms) ∧
    (messagesOf p = some (.arr []) → (mcpHandler env fetch e).calls = [buildCall env ""]) := by
  obtain ⟨hrun, hrej⟩ := saveConversation_call env fetch e i p hreq hi hm hp hn
  refine ⟨⟨?_, ?_⟩, ?_, hrun, ?_⟩
  · intro hcode
    cases hms : messagesOf p with
    | none => rfl
    | some v =>
      cases v with
      | arr ms =>
        rw [hrun ms hms] at hcode
        exact absurd hcode (saveConversation_not_invalid_params env fetch i ms)
      | _ => rfl
  · intro hms
    rw [hrej hms]
    rfl
  · intro hms
    rw [hrej hms]
    exact ⟨rfl, rfl⟩
  · intro hms
    rw [hrun [] hms]
    exact saveConversation_calls env fetch (some i) [] "" rfl

/-- C8 (witness): `arguments:{}` for "saveConversation" yields error -32602
with status 400 and no outbound call. -/
theorem bad_arguments_witness :
    (mcpHandler sampleEnv stubOk
        { method := some (.str "tools/call"),
          params := some (.obj [("name", .str "saveConversation"), ("arguments", .obj [])]),
          id := some (.num 3), jsonrpc := some (.str "2.0") }).reply.errorCode
      = some (.num (-32602)) :=
  (bad_arguments sampleEnv stubOk
    { method := some (.str "tools/call"),
      params := some (.obj [("name", .str "saveConversation"), ("arguments", .obj [])]),
      id := some (.num 3), jsonrpc := some (.str "2.0") }
    (.num 3) (.obj [("name", .str "saveConversation"), ("arguments", .obj [])])
    rfl rfl rfl rfl rfl).1.mpr rfl

/-- C9 (counterexample): a `messages` element without `role`, `{content:"x"}`,
is not rejected: the document is rendered, with "undefined" for the role,
handed to the collaborator, and the reply is a result with status 200. -/
theorem message_without_role_accepted :
    mcpHandler sampleEnv stubOk
        { method := some (.str "tools/call"),
          params := some (.obj [("name", .str "saveConversation"),
            ("arguments", .obj [("messages", .arr [.obj [("content", .str "x")]])])]),
          id := some (.num 1), jsonrpc := some (.str "2.0") }
      = { reply := { status := 200,
                     body := some (.obj [("jsonrpc", .str "2.0"), ("id", .num 1),
                       ("result", .obj
                         [("content", .arr [.obj [("type", .str "text"),
                            ("text", .str "✅ Conversation saved to AIArchives!\n🔗 https://x/y")]]),
                          ("remoteResponse", .obj [("url", .str "https://x/y")])])]) },
          calls := [{ url := "https://archive.example/api/conversation", httpMethod := "POST",
                      htmlDoc := { content := "<p><strong>undefined:</strong> x</p>",
                                   filename := "conversation.html", contentType := "text/html" },
                      isMCP := "true" }] } := rfl

/-- C9 (amended): the arguments of "saveConversation" are checked only for
`messages` being an array. For a request that passes the envelope test and
whose `messages` is an array, whatever its elements, the reply never has
error code -32602, and whenever rendering the elements does not throw, the
rendered document is handed to the collaborator in exactly one outbound
call. -/
theorem elements_not_validated (env : Env) (fetch : OutboundCall → FetchOutcome) (e : Envelope)
    (i p : JVal) (ms : List JVal)
    (hreq : isRequest e = true) (hi : e.id = some i)
    (hm : e.method = some (.str "tools/call"))
    (hp : e.params = some p) (hn : prop p "name" = some (.str "saveConversation"))
    (hms : messagesOf p = some (.arr ms)) :
    (mcpHandler env fetch e).reply.errorCode ≠ some (.num (-32602)) ∧
    ∀ html, renderHtml ms = .ok html → (mcpHandler env fetch e).calls = [buildCall env html] := by
  rw [(saveConversation_call env fetch e i p hreq hi hm hp hn).1 ms hms]
  exact ⟨saveConversation_not_invalid_params env fetch i ms,
    fun html h => saveConversation_calls env fetch (some i) ms html h⟩

/-- C9 (witness): with the elements `"text"` (not an object) and `{role:5}`
(a role that is not a string, no content) the reply is not error -32602. -/
theorem elements_not_validated_witness :
    (mcpHandler sampleEnv stubOk
        { method := some (.str "tools/call"),
          params := some (.obj [("name", .str "saveConversation"),
            ("arguments", .obj [("messages", .arr [.str "text", .obj [("role", .num 5)]])])]),
          id := some (.num 1), jsonrpc := some (.str "2.0") }).reply.errorCode
      ≠ some (.num (-32602)) :=
  (elements_not_validated sampleEnv stubOk
    { method := some (.str "tools/call"),
      params := some (.obj [("name", .str "saveConversation"),
        ("arguments", .obj [("messages", .arr [.str "text", .obj [("role", .num 5)]])])]),
      id := some (.num 1), jsonrpc := some (.str "2.0") }
    (.num 1)
    (.obj [("name", .str "saveConversation"),
        ("arguments", .obj [("messages", .arr [.str "text", .obj [("role", .num 5)]])])])
    [.str "text", .obj [("role", .num 5)]] rfl rfl rfl rfl rfl rfl).1

/-! ## Rendering -/

/-- Prefixing the first string of a join prefixes the joined string. -/
theorem joinStrings_append_head (sep x y : String) (l : List String) :
    joinStrings sep ((x ++ y) :: l) = x ++ joinStrings sep (y :: l) := by
  cases l with
  | nil => rfl
  | cons c l => simp [joinStrings, String.append_assoc]

/-- The accumulating loop of `String.intercalate` computes `joinStrings`. -/
theorem intercalate_go_eq_joinStrings (sep : String) (l : List String) (a : String) :
    String.intercalate.go a sep l = joinStrings sep (a :: l) := by
  induction l generalizing a with
  | nil => rfl
  | cons b l ih =>
    rw [String.intercalate.go, ih, String.append_assoc, joinStrings_append_head,
      joinStrings_append_head]
    simp [joinStrings, String.append_assoc]

/-- The source-side join is the library join. -/
theorem joinStrings_eq_intercalate (sep : String) (l : List String) :
    joinStrings sep l = sep.intercalate l := by
  cases l with
  | nil => rfl
  | cons a l => exact (intercalate_go_eq_joinStrings sep l a).symm

/-- A message with string `role` and `content` renders to its line. -/
theorem renderMessage_of_strings (m : JVal) (rc : String × String) (h : HasRoleContent m rc) :
    renderMessage m = .ok (specLine rc) := by
  obtain ⟨hr, hc⟩ := h
  cases m <;> simp [prop] at hr hc
  simp [renderMessage, getMember, prop, hr, hc, templateStr, toStr, specLine]

/-- The callbacks of `map` on messages with string `role` and `content` give
the lines in input order. -/
theorem mapMessages_of_strings (ms : List JVal) (pairs : List (String × String))
    (h : List.Forall₂ HasRoleContent ms pairs) :
    mapMessages ms = .ok (pairs.map specLine) := by
  induction h with
  | nil => rfl
  | cons hm _ ih => simp [mapMessages, renderMessage_of_strings _ _ hm, ih]

/-- C10: for a `saveConversation` call whose messages have string `role` and
`content`, the document handed to the collaborator, in the single outbound
call, is exactly the lines `<p><strong>role:</strong> content</p>` in input
order, joined by one newline between consecutive lines, with role and
content inserted verbatim; the empty sequence gives the empty document. -/
theorem rendering (env : Env) (fetch : OutboundCall → FetchOutcome) (e : Envelope)
    (i p : JVal) (ms : List JVal) (pairs : List (String × String))
    (hreq : isRequest e = true) (hi : e.id = some i)
    (hm : e.method = some (.str "tools/call"))
    (hp : e.params = some p) (hn : prop p "name" = some (.str "saveConversation"))
    (hms : messagesOf p = some (.arr ms)) (hpairs : List.Forall₂ HasRoleContent ms pairs) :
    renderHtml ms = .ok (specDocument pairs) ∧
    (mcpHandler env fetch e).calls.map (fun c => c.htmlDoc.content) = [specDocument pairs] ∧
    (pairs = [] → (mcpHandler env fetch e).calls.map (fun c => c.htmlDoc.content) = [""]) := by
  have hr : renderHtml ms = .ok (specDocument pairs) := by
    simp [renderHtml, mapMessages_of_strings ms pairs hpairs, joinStrings_eq_intercalate,
      specDocument]
  have hc : (mcpHandler env fetch e).calls = [buildCall env (specDocument pairs)] := by
    rw [(saveConversation_call env fetch e i p hreq hi hm hp hn).1 ms hms]
    exact saveConversation_calls env fetch (some i) ms _ hr
  refine ⟨hr, ?_, ?_⟩
  · rw [hc]; rfl
  · intro hnil
    rw [hc, hnil]; rfl

/-- C10 (witness): the messages `{role:"user", content:"<b>&"}` and
`{role:"assistant", content:"hi"}` give the two lines joined by one newline,
with `<b>&` unchanged. -/
theorem rendering_witness :
    (mcpHandler sampleEnv stubOk
        { method := some (.str "tools/call"),
          params := some (.obj [("name", .str "saveConversation"),
            ("arguments", .obj [("messages", .arr
              [.obj [("role", .str "user"), ("content", .str "<b>&")],
               .obj [("role", .str "assistant"), ("content", .str "hi")]])])]),
          id := some (.num 1), jsonrpc := some (.str "2.0") }).calls.map
        (fun c => c.htmlDoc.content)
      = ["<p><strong>user:</strong> <b>&</p>\n<p><strong>assistant:</strong> hi</p>"] :=
  (rendering sampleEnv stubOk
    { method := some (.str "tools/call"),
      params := some (.obj [("name", .str "saveConversation"),
        ("arguments", .obj [("messages", .arr
          [.obj [("role", .str "user"), ("content", .str "<b>&")],
           .obj [("role", .str "assistant"), ("content", .str "hi")]])])]),
      id := some (.num 1), jsonrpc := some (.str "2.0") }
    (.num 1)
    (.obj [("name", .str "saveConversation"),
        ("arguments", .obj [("messages", .arr
          [.obj [("role", .str "user"), ("content", .str "<b>&")],
           .obj [("role", .str "assistant"), ("content", .str "hi")]])])])
    [.obj [("role", .str "user"), ("content", .str "<b>&")],
     .obj [("role", .str "assistant"), ("content", .str "hi")]]
    [("user", "<b>&"), ("assistant", "hi")]
    rfl rfl rfl rfl rfl rfl
    (.cons ⟨rfl, rfl⟩ (.cons ⟨rfl, rfl⟩ .nil))).2.1

/-! ## The tool body and the collaborator -/

/-- C11: for a `tools/call` request for "saveConversation" that passes the
envelope test, whose `messages` is an array that renders without throwing
(as every array of messages with string `role` and `content` does), and for
a collaborator reply with a success status whose JSON body `D` has a string
`url`, the reply is status 200 with result `{content:[{type:"text", text}],
remoteResponse:D}`: `content` has one element, `text` ends with the url, and
`remoteResponse` is `D` unchanged. -/
theorem happy_path (env : Env) (fetch : OutboundCall → FetchOutcome) (e : Envelope)
    (i p : JVal) (ms : List JVal) (html : String) (r : RemoteResponse) (D : JVal) (u : String)
    (hreq : isRequest e = true) (hi : e.id = some i)
    (hm : e.method = some (.str "tools/call"))
    (hp : e.params = some p) (hn : prop p "name" = some (.str "saveConversation"))
    (hms : messagesOf p = some (.arr ms)) (hhtml : renderHtml ms = .ok html)
    (hfetch : fetch (buildCall env html) = .resolved r) (hok : r.ok = true)
    (hjson : r.json = .ok D) (hurl : prop D "url" = some (.str u)) :
    (mcpHandler env fetch e).reply
      = { status := 200,
          body := some (.obj [("jsonrpc", .str "2.0"), ("id", i),
            ("result", .obj
              [("content", .arr [.obj [("type", .str "text"),
                  ("text", .str ("✅ Conversation saved to AIArchives!\n🔗 " ++ u))]]),
               ("remoteResponse", D)])]) } ∧
    (∃ pre post, "✅ Conversation saved to AIArchives!\n🔗 " ++ u = pre ++ u ++ post) ∧
    prop D "url" = some (.str u) := by
  refine ⟨?_, ⟨"✅ Conversation saved to AIArchives!\n🔗 ", "", by simp⟩, hurl⟩
  rw [(saveConversation_call env fetch e i p hreq hi hm hp hn).1 ms hms]
  have hget : getMember D "url" = .ok (some (.str u)) := by
    cases D <;> simp [prop] at hurl
    simp [getMember, prop, hurl]
  simp [saveConversation, hhtml, hfetch, afterFetch, hok, hjson, hget, templateStr, toStr,
    resultEnvelope, jsonObject]

/-- C11 (witness): the messages `[{role:"user", content:"hi"}]` against a
collaborator that answers 200 with `{url:"https://x/y"}` give a result whose
text ends with `https://x/y` and whose `remoteResponse` is that reply. -/
theorem happy_path_witness :
    (mcpHandler sampleEnv stubOk
        { method := some (.str "tools/call"),
          params := some (.obj [("name", .str "saveConversation"),
            ("arguments", .obj [("messages", .arr
              [.obj [("role", .str "user"), ("content", .str "hi")]])])]),
          id := some (.num 1), jsonrpc := some (.str "2.0") }).reply
      = { status := 200,
          body := some (.obj [("jsonrpc", .str "2.0"), ("id", .num 1),
            ("result", .obj
              [("content", .arr [.obj [("type", .str "text"),
                  ("text", .str "✅ Conversation saved to AIArchives!\n🔗 https://x/y")]]),
               ("remoteResponse", .obj [("url", .str "https://x/y")])])]) } :=
  (happy_path sampleEnv stubOk
    { method := some (.str "tools/call"),
      params := some (.obj [("name", .str "saveConversation"),
        ("arguments", .obj [("messages", .arr
          [.obj [("role", .str "user"), ("content", .str "hi")]])])]),
      id := some (.num 1), jsonrpc := some (.str "2.0") }
    (.num 1)
    (.obj [("name", .str "saveConversation"),
        ("arguments", .obj [("messages", .arr
          [.obj [("role", .str "user"), ("content", .str "hi")]])])])
    [.obj [("role", .str "user"), ("content", .str "hi")]]
    "<p><strong>user:</strong> hi</p>"
    { status := 200, statusText := "OK", text := .ok "\x7b\"url\":\"https://x/y\"\x7d",
      json := .ok (.obj [("url", .str "https://x/y")]) }
    (.obj [("url", .str "https://x/y")]) "https://x/y"
    rfl rfl rfl rfl rfl rfl rfl rfl rfl rfl rfl).1

/-- C12: for a `tools/call` request for "saveConversation" that passes the
envelope test and whose `messages` renders without throwing, a collaborator
reply with a non-success status `s` and body text `b` gives status 500 with
error code -32000, a message that contains the decimal text of `s` and
contains `b`, and no `result`. -/
theorem downstream_failure (env : Env) (fetch : OutboundCall → FetchOutcome) (e : Envelope)
    (i p : JVal) (ms : List JVal) (html : String) (r : RemoteResponse) (b : String)
    (hreq : isRequest e = true) (hi : e.id = some i)
    (hm : e.method = some (.str "tools/call"))
    (hp : e.params = some p) (hn : prop p "name" = some (.str "saveConversation"))
    (hms : messagesOf p = some (.arr ms)) (hhtml : renderHtml ms = .ok html)
    (hfetch : fetch (buildCall env html) = .resolved r) (hok : r.ok = false)
    (htext : r.text = .ok b) :
    (mcpHandler env fetch e).reply
      = { status := 500,
          body := some (.obj [("jsonrpc", .str "2.0"), ("id", i),
            ("error", .obj [("code", .num (-32000)),
              ("message", .str ("Remote API error: " ++ toString r.status ++ " " ++
                r.statusText ++ " - " ++ b))])]) } ∧
    (∃ pre post, "Remote API error: " ++ toString r.status ++ " " ++ r.statusText ++ " - " ++ b
      = pre ++ toString r.status ++ post) ∧
    (∃ pre post, "Remote API error: " ++ toString r.status ++ " " ++ r.statusText ++ " - " ++ b
      = pre ++ b ++ post) ∧
    (mcpHandler env fetch e).reply.field "result" = none := by
  have hrun : mcpHandler env fetch e = saveConversation env fetch (some i) ms :=
    (saveConversation_call env fetch e i p hreq hi hm hp hn).1 ms hms
  have hreply : (saveConversation env fetch (some i) ms).reply
      = { status := 500,
          body := some (.obj [("jsonrpc", .str "2.0"), ("id", i),
            ("error", .obj [("code", .num (-32000)),
              ("message", .str ("Remote API error: " ++ toString r.status ++ " " ++
                r.statusText ++ " - " ++ b))])]) } := by
    simp [saveConversation, hhtml, hfetch, afterFetch, hok, htext, internalErrorReply,
      errorEnvelope, jsonObject]
  rw [hrun]
  refine ⟨hreply, ⟨"Remote API error: ", " " ++ r.statusText ++ " - " ++ b, ?_⟩,
    ⟨"Remote API error: " ++ toString r.status ++ " " ++ r.statusText ++ " - ", "", ?_⟩, ?_⟩
  · simp [String.append_assoc]
  · simp [String.append_assoc]
  · rw [hreply]; rfl

/-- C12 (witness): a collaborator that answers 500 with the text `disk full`
gives error -32000 with a message that has `500` and `disk full` in it. -/
theorem downstream_failure_witness :
    (mcpHandler sampleEnv stubFail
        { method := some (.str "tools/call"),
          params := some (.obj [("name", .str "saveConversation"),
            ("arguments", .obj [("messages", .arr
              [.obj [("role", .str "user"), ("content", .str "hi")]])])]),
          id := some (.num 1), jsonrpc := some (.str "2.0") }).reply
      = { status := 500,
          body := some (.obj [("jsonrpc", .str "2.0"), ("id", .num 1),
            ("error", .obj [("code", .num (-32000)),
              ("message",
                .str "Remote API error: 500 Internal Server Error - disk full")])]) } :=
  (downstream_failure sampleEnv stubFail
    { method := some (.str "tools/call"),
      params := some (.obj [("name", .str "saveConversation"),
        ("arguments", .obj [("messages", .arr
          [.obj [("role", .str "user"), ("content", .str "hi")]])])]),
      id := some (.num 1), jsonrpc := some (.str "2.0") }
    (.num 1)
    (.obj [("name", .str "saveConversation"),
        ("arguments", .obj [("messages", .arr
          [.obj [("role", .str "user"), ("content", .str "hi")]])])])
    [.obj [("role", .str "user"), ("content", .str "hi")]]
    "<p><strong>user:</strong> hi</p>"
    { status := 500, statusText := "Internal Server Error", text := .ok "disk full",
      json := .error ⟨"Unexpected token d in JSON at position 0"⟩ }
    "disk full"
    rfl rfl rfl rfl rfl rfl rfl rfl rfl rfl).1

/-! ## Exceptions -/

/-- When `(x || {}).key` is defined, `x` is an object and `x || {}` is `x`. -/
theorem orEmptyObject_of_prop (o : Option JVal) (key : String) (v : JVal)
    (h : prop (orEmptyObject o) key = some v) : o = some (orEmptyObject o) := by
  cases o with
  | none => simp [orEmptyObject, prop] at h
  | some w =>
    cases w with
    | obj fs => simp [orEmptyObject, truthyVal]
    | null => simp [orEmptyObject, truthyVal, prop] at h
    | bool b => cases b <;> simp [orEmptyObject, truthyVal, prop] at h
    | num n =>
      by_cases hn : n = 0 <;> simp [orEmptyObject, truthyVal, prop, hn] at h
    | str t =>
      by_cases ht : t = "" <;> simp [orEmptyObject, truthyVal, prop, ht] at h
    | arr xs => simp [orEmptyObject, truthyVal, prop] at h

/-- A value whose string conversion throws is not a string. -/
theorem strictEqStr_of_templateStr_error (o : Option JVal) (lit : String) (err : JsError)
    (h : templateStr o = .error err) : strictEqStr o lit = false := by
  cases o with
  | none => rfl
  | some v =>
    cases v with
    | str t => simp [templateStr, toStr] at h
    | _ => rfl

/-- C13 (counterexample): in the request `{jsonrpc:"2.0", id:1,
method:"tools/call", params:{name:{toString:0}}}` building the "Unknown tool"
message throws; the exception is not reported as -32000 but leaves the case
and is answered by the outer `catch` with -32603. -/
theorem unknown_tool_message_throw_is_32603 :
    mcpHandler sampleEnv stubFail
        { method := some (.str "tools/call"),
          params := some (.obj [("name", .obj [("toString", .num 0)])]),
          id := some (.num 1), jsonrpc := some (.str "2.0") }
      = { reply := { status := 500,
                     body := some (.obj [("jsonrpc", .str "2.0"), ("id", .num 1),
                       ("error", .obj [("code", .num (-32603)),
                          ("message", .str "Cannot convert object to primitive value")])]) },
          calls := [] } := rfl

/-- Rendering stops at a null element that follows messages with string
`role` and `content`: reading `m.role` throws. -/
theorem mapMessages_null (pre post : List JVal) (pairs : List (String × String))
    (h : List.Forall₂ HasRoleContent pre pairs) :
    mapMessages (pre ++ .null :: post)
      = .error ⟨"Cannot read properties of null (reading \x27role\x27)"⟩ := by
  induction h with
  | nil => rfl
  | cons hm _ ih => simp [mapMessages, renderMessage_of_strings _ _ hm, ih]

/-- C13 (amended): a `tools/call` request that passes the envelope test gets
one reply with a JSON body, whatever the collaborator does. An exception
raised inside the tool body is answered 500 with error -32000 and the
message of the exception: a rendering that throws (as on a null element), a
`fetch` that throws, a body of a failed reply that cannot be read, the error
built from a failed reply, a reply that does not parse, a reply that is
`null`, and a `url` that cannot be converted to a string. An exception
raised while the "Unknown tool" message is built (as for a name that is an
object with a `toString` key) is outside the inner `try` and is answered by
the outer `catch` with status 500, error -32603 and the message of the
exception, without an outbound call. -/
theorem tool_exceptions (env : Env) (fetch : OutboundCall → FetchOutcome) (e : Envelope)
    (i : JVal)
    (hreq : isRequest e = true) (hi : e.id = some i)
    (hm : e.method = some (.str "tools/call")) :
    (∃ b, (mcpHandler env fetch e).reply.body = some b ∧ IsEnvelope b) ∧
    (∀ err, templateStr (prop (orEmptyObject e.params) "name") = .error err →
      (mcpHandler env fetch e).reply.status = 500 ∧
      (mcpHandler env fetch e).reply.errorCode = some (.num (-32603)) ∧
      (mcpHandler env fetch e).reply.errorMessage = some (.str err.message) ∧
      (mcpHandler env fetch e).calls = []) ∧
    (∀ fields v, prop (orEmptyObject e.params) "name" = some (.obj fields) →
      fields.lookup "toString" = some v →
      (mcpHandler env fetch e).reply.status = 500 ∧
      (mcpHandler env fetch e).reply.errorCode = some (.num (-32603)) ∧
      (mcpHandler env fetch e).reply.errorMessage
        = some (.str "Cannot convert object to primitive value") ∧
      (mcpHandler env fetch e).calls = []) ∧
    (∀ ms, prop (orEmptyObject e.params) "name" = some (.str "saveConversation") →
      messagesOf (orEmptyObject e.params) = some (.arr ms) →
      (∀ err, renderHtml ms = .error err →
        mcpHandler env fetch e
          = { reply := { status := 500,
                         body := some (errorEnvelope (some i) (-32000) err.message) },
              calls := [] }) ∧
      (∀ pre post pairs, ms = pre ++ .null :: post → List.Forall₂ HasRoleContent pre pairs →
        mcpHandler env fetch e
          = { reply := { status := 500,
                         body := some (errorEnvelope (some i) (-32000)
                           "Cannot read properties of null (reading \x27role\x27)") },
              calls := [] }) ∧
      (∀ html, renderHtml ms = .ok html →
        (∀ err, fetch (buildCall env html) = .rejected err →
          mcpHandler env fetch e
            = { reply := { status := 500,
                           body := some (errorEnvelope (some i) (-32000) err.message) },
                calls := [buildCall env html] }) ∧
        (∀ r, fetch (buildCall env html) = .resolved r →
          (∀ err, r.ok = false → r.text = .error err →
            mcpHandler env fetch e
              = { reply := { status := 500,
                             body := some (errorEnvelope (some i) (-32000) err.message) },
                  calls := [buildCall env html] }) ∧
          (∀ b, r.ok = false → r.text = .ok b →
            mcpHandler env fetch e
              = { reply := { status := 500,
                             body := some (errorEnvelope (some i) (-32000)
                               ("Remote API error: " ++ toString r.status ++ " " ++
                                 r.statusText ++ " - " ++ b)) },
                  calls := [buildCall env html] }) ∧
          (∀ err, r.ok = true → r.json = .error err →
            mcpHandler env fetch e
              = { reply := { status := 500,
                             body := some (errorEnvelope (some i) (-32000) err.message) },
                  calls := [buildCall env html] }) ∧
          (r.ok = true → r.json = .ok .null →
            mcpHandler env fetch e
              = { reply := { status := 500,
                             body := some (errorEnvelope (some i) (-32000)
                               "Cannot read properties of null (reading \x27url\x27)") },
                  calls := [buildCall env html] }) ∧
          (∀ D err, r.ok = true → r.json = .ok D → D ≠ .null →
            templateStr (prop D "url") = .error err →
            mcpHandler env fetch e
              = { reply := { status := 500,
                             body := some (errorEnvelope (some i) (-32000) err.message) },
                  calls := [buildCall env html] })))) := by
  have hreq2 := hreq
  simp only [isRequest, Bool.and_eq_true] at hreq2
  obtain ⟨⟨hj, hmt⟩, -⟩ := hreq2
  rw [hm] at hmt
  have houter : ∀ err, templateStr (prop (orEmptyObject e.params) "name") = .error err →
      (mcpHandler env fetch e).reply.status = 500 ∧
      (mcpHandler env fetch e).reply.errorCode = some (.num (-32603)) ∧
      (mcpHandler env fetch e).reply.errorMessage = some (.str err.message) ∧
      (mcpHandler env fetch e).calls = [] := by
    intro err herr
    have hne := strictEqStr_of_templateStr_error _ "saveConversation" err herr
    have hcall : toolsCall env fetch (some i) e.params = .error err := by
      simp [toolsCall, hne, herr]
    simp [mcpHandler, tryBlock, hi, hj, hmt, hm, strictEqStr, hcall, HttpReply.errorCode,
      HttpReply.errorMessage, HttpReply.field, errorEnvelope, jsonObject, prop, List.lookup]
  refine ⟨?_, houter, ?_, ?_⟩
  · cases hb : (mcpHandler env fetch e).reply.body with
    | some b => exact ⟨b, rfl, mcpHandler_body env fetch e b hb⟩
    | none =>
      exfalso
      simp only [mcpHandler, tryBlock, hi, hj, hmt, hm, strictEqStr] at hb
      simp at hb
      cases ht : toolsCall env fetch (some i) e.params with
      | error err => simp [ht] at hb
      | ok out =>
        obtain ⟨b, hb2, -⟩ := toolsCall_isEnvelope env fetch i e.params out ht
        simp [ht, hb2] at hb
  · intro fields v hname hts
    exact houter ⟨"Cannot convert object to primitive value"⟩
      (by simp [hname, templateStr, toStr, hts])
  · intro ms hname hmsgs
    have hp := orEmptyObject_of_prop e.params "name" _ hname
    have hrun := (saveConversation_call env fetch e i (orEmptyObject e.params) hreq hi hm hp
      hname).1 ms hmsgs
    rw [hrun]
    refine ⟨?_, ?_, ?_⟩
    · intro err herr
      simp [saveConversation, herr, internalErrorReply]
    · intro pre post pairs hsplit hpairs
      subst hsplit
      simp [saveConversation, renderHtml, mapMessages_null pre post pairs hpairs,
        internalErrorReply]
    · intro html hhtml
      refine ⟨?_, ?_⟩
      · intro err hf
        simp [saveConversation, hhtml, hf, afterFetch, internalErrorReply]
      · intro r hf
        refine ⟨?_, ?_, ?_, ?_, ?_⟩
        · intro err hok ht
          simp [saveConversation, hhtml, hf, afterFetch, hok, ht, internalErrorReply]
        · intro b hok ht
          simp [saveConversation, hhtml, hf, afterFetch, hok, ht, internalErrorReply]
        · intro err hok hjs
          simp [saveConversation, hhtml, hf, afterFetch, hok, hjs, internalErrorReply]
        · intro hok hjs
          simp [saveConversation, hhtml, hf, afterFetch, hok, hjs, getMember,
            internalErrorReply]
        · intro D err hok hjs hD herr
          have hget : getMember D "url" = .ok (prop D "url") := by
            cases D with
            | null => exact absurd rfl hD
            | _ => rfl
          simp [saveConversation, hhtml, hf, afterFetch, hok, hjs, hget, herr,
            internalErrorReply]

/-- C13 (witness): a null element after a valid message, a collaborator that
cannot be reached, a reply that is not JSON and a reply that is `null` are
each answered 500 with error -32000 and the message of the exception. -/
theorem tool_exceptions_witness :
    mcpHandler sampleEnv stubOk
        { method := some (.str "tools/call"),
          params := some (.obj [("name", .str "saveConversation"),
            ("arguments", .obj [("messages", .arr
              [.obj [("role", .str "user"), ("content", .str "hi")], .null])])]),
          id := some (.num 1), jsonrpc := some (.str "2.0") }
      = { reply := { status := 500,
                     body := some (errorEnvelope (some (.num 1)) (-32000)
                       "Cannot read properties of null (reading \x27role\x27)") },
          calls := [] } ∧
    mcpHandler sampleEnv stubReject
        { method := some (.str "tools/call"),
          params := some (.obj [("name", .str "saveConversation"),
            ("arguments", .obj [("messages", .arr [])])]),
          id := some (.num 1), jsonrpc := some (.str "2.0") }
      = { reply := { status := 500,
                     body := some (errorEnvelope (some (.num 1)) (-32000)
                       "connect ECONNREFUSED") },
          calls := [buildCall sampleEnv ""] } ∧
    mcpHandler sampleEnv stubBadJson
        { method := some (.str "tools/call"),
          params := some (.obj [("name", .str "saveConversation"),
            ("arguments", .obj [("messages", .arr [])])]),
          id := some (.num 1), jsonrpc := some (.str "2.0") }
      = { reply := { status := 500,
                     body := some (errorEnvelope (some (.num 1)) (-32000)
                       "Unexpected token < in JSON at position 0") },
          calls := [buildCall sampleEnv ""] } ∧
    mcpHandler sampleEnv stubNull
        { method := some (.str "tools/call"),
          params := some (.obj [("name", .str "saveConversation"),
            ("arguments", .obj [("messages", .arr [])])]),
          id := some (.num 1), jsonrpc := some (.str "2.0") }
      = { reply := { status := 500,
                     body := some (errorEnvelope (some (.num 1)) (-32000)
                       "Cannot read properties of null (reading \x27url\x27)") },
          calls := [buildCall sampleEnv ""] } :=
  ⟨((tool_exceptions sampleEnv stubOk
      { method := some (.str "tools/call"),
        params := some (.obj [("name", .str "saveConversation"),
          ("arguments", .obj [("messages", .arr
            [.obj [("role", .str "user"), ("content", .str "hi")], .null])])]),
        id := some (.num 1), jsonrpc := some (.str "2.0") }
      (.num 1) rfl rfl rfl).2.2.2
        [.obj [("role", .str "user"), ("content", .str "hi")], .null] rfl rfl).2.1
      [.obj [("role", .str "user"), ("content", .str "hi")]] [] [("user", "hi")] rfl
      (.cons ⟨rfl, rfl⟩ .nil),
   (((tool_exceptions sampleEnv stubReject
      { method := some (.str "tools/call"),
        params := some (.obj [("name", .str "saveConversation"),
          ("arguments", .obj [("messages", .arr [])])]),
        id := some (.num 1), jsonrpc := some (.str "2.0") }
      (.num 1) rfl rfl rfl).2.2.2 [] rfl rfl).2.2 "" rfl).1
      ⟨"connect ECONNREFUSED"⟩ rfl,
   ((((tool_exceptions sampleEnv stubBadJson
      { method := some (.str "tools/call"),
        params := some (.obj [("name", .str "saveConversation"),
          ("arguments", .obj [("messages", .arr [])])]),
        id := some (.num 1), jsonrpc := some (.str "2.0") }
      (.num 1) rfl rfl rfl).2.2.2 [] rfl rfl).2.2 "" rfl).2
      { status := 200, statusText := "OK", text := .ok "<html>",
        json := .error ⟨"Unexpected token < in JSON at position 0"⟩ } rfl).2.2.1
      ⟨"Unexpected token < in JSON at position 0"⟩ rfl rfl,
   ((((tool_exceptions sampleEnv stubNull
      { method := some (.str "tools/call"),
        params := some (.obj [("name", .str "saveConversation"),
          ("arguments", .obj [("messages", .arr [])])]),
        id := some (.num 1), jsonrpc := some (.str "2.0") }
      (.num 1) rfl rfl rfl).2.2.2 [] rfl rfl).2.2 "" rfl).2
      { status := 200, statusText := "OK", text := .ok "null", json := .ok .null }
      rfl).2.2.2.1 rfl rfl⟩

/-! ## Status and error code -/

/-- Every reply of the inner `try`/`catch` is a result with status 200 or
error -32000 with status 500. -/
theorem saveConversation_replyKind (env : Env) (fetch : OutboundCall → FetchOutcome)
    (i : JVal) (messages : List JVal) :
    ReplyKind (saveConversation env fetch (some i) messages).reply := by
  unfold saveConversation
  split
  · exact .serverError _ _ _ (Or.inl rfl)
  · dsimp only
    split
    · exact .serverError _ _ _ (Or.inl rfl)
    · exact .success _ _

/-- Every reply of the case `tools/call` is of one of the four kinds. -/
theorem toolsCall_replyKind (env : Env) (fetch : OutboundCall → FetchOutcome)
    (i : JVal) (params : Option JVal) (out : Outcome)
    (h : toolsCall env fetch (some i) params = .ok out) : ReplyKind out.reply := by
  unfold toolsCall at h
  dsimp only at h
  split at h
  · split at h
    · cases h
    · cases h; exact .clientError _ _ _ (Or.inr (Or.inl rfl))
  · split at h
    · cases h; exact saveConversation_replyKind env fetch i _
    · cases h; exact .clientError _ _ _ (Or.inr (Or.inr rfl))

/-- Every reply of the handler is of one of the four kinds. -/
theorem mcpHandler_replyKind (env : Env) (fetch : OutboundCall → FetchOutcome) (e : Envelope) :
    ReplyKind (mcpHandler env fetch e).reply := by
  unfold mcpHandler
  split
  next out hout =>
    unfold tryBlock at hout
    split at hout
    · split at hout
      · cases hout
      · cases hout; exact .noContent
    · split at hout
      · cases hout; exact .clientError _ _ _ (Or.inl rfl)
      · next hnot hreq =>
        obtain ⟨i, hi⟩ : ∃ i, e.id = some i := by
          cases hid : e.id with
          | none => simp [hid] at hreq
          | some i => exact ⟨i, rfl⟩
        rw [hi] at hout
        split at hout
        · cases hout; exact .success _ _
        · split at hout
          · cases hout; exact .success _ _
          · split at hout
            · exact toolsCall_replyKind env fetch i e.params out hout
            · split at hout
              · cases hout
              · cases hout; exact .clientError _ _ _ (Or.inr (Or.inl rfl))
  next err herr =>
    exact .serverError _ _ _ (Or.inr rfl)

/-- A reply without a body is the reply to a notification: `id` is absent
and `method` is truthy. -/
theorem notification_of_no_body (env : Env) (fetch : OutboundCall → FetchOutcome)
    (e : Envelope) (h : (mcpHandler env fetch e).reply.body = none) :
    e.id = none ∧ truthy e.method = true := by
  by_cases hc : (e.id.isNone && truthy e.method) = true
  · simpa using hc
  · exfalso
    unfold mcpHandler at h
    split at h
    next out hout =>
      unfold tryBlock at hout
      rw [if_neg hc] at hout
      split at hout
      · cases hout; cases h
      · next hreq =>
        obtain ⟨i, hi⟩ : ∃ i, e.id = some i := by
          cases hid : e.id with
          | none => simp [hid] at hreq
          | some i => exact ⟨i, rfl⟩
        rw [hi] at hout
        split at hout
        · cases hout; cases h
        · split at hout
          · cases hout; cases h
          · split at hout
            · obtain ⟨b, hb, -⟩ := toolsCall_isEnvelope env fetch i e.params out hout
              rw [hb] at h; cases h
            · split at hout
              · cases hout
              · cases hout; cases h
    next err herr => cases h

/-- C14 (failing input): the envelope `{jsonrpc:"2.0",
method:{toString:"x"}}` has no `id` and a truthy `method`, so it is a
notification, yet its status is not 204: the template literal of the log
line 23 throws and the outer `catch` answers 500 with error -32603 and a
body. -/
theorem notification_status_is_500 :
    mcpHandler sampleEnv stubOk
        { method := some (.obj [("toString", .str "x")]), params := none, id := none,
          jsonrpc := some (.str "2.0") }
      = { reply := { status := 500,
                     body := some (.obj [("jsonrpc", .str "2.0"), ("id", .null),
                       ("error", .obj [("code", .num (-32603)),
                          ("message", .str "Cannot convert object to primitive value")])]) },
          calls := [] } := rfl

/-- On the side of the reply the status is determined by what the reply
carries: 204 exactly when there is no body, which happens only for a
notification (`id` absent, `method` truthy); 200 exactly when the body has
`result`; 400 exactly when the body has an error with code -32600, -32601 or
-32602; 500 exactly when the body has an error with code -32000 or -32603.
No other status and no other error code is sent. That every notification
gets 204 is not part of this: it fails when the log line throws. -/
theorem status_mapping (env : Env) (fetch : OutboundCall → FetchOutcome) (e : Envelope) :
    ((mcpHandler env fetch e).reply.status = 204 ↔ (mcpHandler env fetch e).reply.body = none) ∧
    ((mcpHandler env fetch e).reply.status = 204 → e.id = none ∧ truthy e.method = true) ∧
    ((mcpHandler env fetch e).reply.status = 200 ↔
      ((mcpHandler env fetch e).reply.field "result").isSome = true) ∧
    ((mcpHandler env fetch e).reply.status = 400 ↔
      ((mcpHandler env fetch e).reply.errorCode = some (.num (-32600)) ∨
       (mcpHandler env fetch e).reply.errorCode = some (.num (-32601)) ∨
       (mcpHandler env fetch e).reply.errorCode = some (.num (-32602)))) ∧
    ((mcpHandler env fetch e).reply.status = 500 ↔
      ((mcpHandler env fetch e).reply.errorCode = some (.num (-32000)) ∨
       (mcpHandler env fetch e).reply.errorCode = some (.num (-32603)))) ∧
    ((mcpHandler env fetch e).reply.status = 204 ∨ (mcpHandler env fetch e).reply.status = 200 ∨
      (mcpHandler env fetch e).reply.status = 400 ∨
      (mcpHandler env fetch e).reply.status = 500) ∧
    ((mcpHandler env fetch e).reply.errorCode = none ∨
      (mcpHandler env fetch e).reply.errorCode = some (.num (-32600)) ∨
      (mcpHandler env fetch e).reply.errorCode = some (.num (-32601)) ∨
      (mcpHandler env fetch e).reply.errorCode = some (.num (-32602)) ∨
      (mcpHandler env fetch e).reply.errorCode = some (.num (-32000)) ∨
      (mcpHandler env fetch e).reply.errorCode = some (.num (-32603))) := by
  have hk := mcpHandler_replyKind env fetch e
  have hn := notification_of_no_body env fetch e
  generalize (mcpHandler env fetch e).reply = r at hk hn
  cases hk with
  | noContent =>
    refine ⟨by simp, fun _ => hn rfl, ?_, ?_, ?_, ?_, ?_⟩ <;>
      simp [HttpReply.field, HttpReply.errorCode]
  | success i r =>
    refine ⟨by simp, by simp, ?_, ?_, ?_, ?_, ?_⟩ <;>
      simp [HttpReply.field, HttpReply.errorCode, resultEnvelope, jsonObject, prop, List.lookup]
  | clientError i c msg hc =>
    rcases hc with rfl | rfl | rfl <;>
      (refine ⟨by simp, by simp, ?_, ?_, ?_, ?_, ?_⟩ <;>
        simp [HttpReply.field, HttpReply.errorCode, errorEnvelope, jsonObject, prop,
          List.lookup])
  | serverError i c msg hc =>
    rcases hc with rfl | rfl <;>
      (refine ⟨by simp, by simp, ?_, ?_, ?_, ?_, ?_⟩ <;>
        simp [HttpReply.field, HttpReply.errorCode, errorEnvelope, jsonObject, prop,
          List.lookup])

/-! ## The static methods -/

/-- C15: a request with method "tools/list" that passes the envelope test is
answered, whatever `params` is, with status 200 and the result `{tools: L}`
where `L` has exactly one descriptor: its `name` is "saveConversation", its
`description` is a string, and its `inputSchema` is an object schema that
requires "messages", an array of objects that require "role" and "content",
both of type string. The result is the same for every such request. -/
theorem tools_list_shape (env : Env) (fetch : OutboundCall → FetchOutcome) (e : Envelope)
    (i : JVal)
    (hreq : isRequest e = true) (hi : e.id = some i)
    (hm : e.method = some (.str "tools/list")) :
    mcpHandler env fetch e
      = { reply := { status := 200,
                     body := some (.obj [("jsonrpc", .str "2.0"), ("id", i),
                                         ("result", toolsListResult)]) },
          calls := [] } ∧
    ∃ d, toolsListResult = .obj [("tools", .arr [d])] ∧
      prop d "name" = some (.str "saveConversation") ∧
      (∃ text, prop d "description" = some (.str text)) ∧
      d.path ["inputSchema", "type"] = some (.str "object") ∧
      d.path ["inputSchema", "required"] = some (.arr [.str "messages"]) ∧
      d.path ["inputSchema", "properties", "messages", "type"] = some (.str "array") ∧
      d.path ["inputSchema", "properties", "messages", "items", "type"]
        = some (.str "object") ∧
      d.path ["inputSchema", "properties", "messages", "items", "required"]
        = some (.arr [.str "role", .str "content"]) ∧
      d.path ["inputSchema", "properties", "messages", "items", "properties", "role", "type"]
        = some (.str "string") ∧
      d.path ["inputSchema", "properties", "messages", "items", "properties", "content",
          "type"]
        = some (.str "string") := by
  simp only [isRequest, Bool.and_eq_true] at hreq
  obtain ⟨⟨hj, hmt⟩, -⟩ := hreq
  rw [hm] at hmt
  constructor
  · simp [mcpHandler, tryBlock, hi, hj, hmt, hm, strictEqStr, resultEnvelope, jsonObject]
  · exact ⟨_, rfl, rfl, ⟨_, rfl⟩, rfl, rfl, rfl, rfl, rfl, rfl, rfl⟩

/-- C15 (witness): `{jsonrpc:"2.0", id:"a", method:"tools/list", params:5}` is
answered 200 with the tool list. -/
theorem tools_list_shape_witness :
    mcpHandler sampleEnv stubOk
        { method := some (.str "tools/list"), params := some (.num 5), id := some (.str "a"),
          jsonrpc := some (.str "2.0") }
      = { reply := { status := 200,
                     body := some (.obj [("jsonrpc", .str "2.0"), ("id", .str "a"),
                                         ("result", toolsListResult)]) },
          calls := [] } :=
  (tools_list_shape sampleEnv stubOk
    { method := some (.str "tools/list"), params := some (.num 5), id := some (.str "a"),
      jsonrpc := some (.str "2.0") }
    (.str "a") rfl rfl rfl).1

/-- C16: a request with method "initialize" that passes the envelope test is
answered with status 200 and the static result `{protocolVersion,
capabilities:{tools:{}}, serverInfo:{name, version}}`, with no outbound call;
`params`, the configuration and the collaborator are not looked at, so the
reply is the same when any of them changes. -/
theorem initialize_static (env : Env) (fetch : OutboundCall → FetchOutcome) (e : Envelope)
    (i : JVal)
    (hreq : isRequest e = true) (hi : e.id = some i)
    (hm : e.method = some (.str "initialize")) :
    mcpHandler env fetch e
      = { reply := { status := 200,
                     body := some (.obj [("jsonrpc", .str "2.0"), ("id", i),
                                         ("result", initializeResult)]) },
          calls := [] } ∧
    (∃ version name serverVersion,
      initializeResult
        = .obj [("protocolVersion", .str version),
                ("capabilities", .obj [("tools", .obj [])]),
                ("serverInfo", .obj [("name", .str name), ("version", .str serverVersion)])]) ∧
    (∀ (params : Option JVal) (env2 : Env) (fetch2 : OutboundCall → FetchOutcome),
      mcpHandler env2 fetch2 { e with params := params } = mcpHandler env fetch e) := by
  simp only [isRequest, Bool.and_eq_true] at hreq
  obtain ⟨⟨hj, hmt⟩, -⟩ := hreq
  rw [hm] at hmt
  refine ⟨?_, ⟨_, _, _, rfl⟩, ?_⟩
  · simp [mcpHandler, tryBlock, hi, hj, hmt, hm, strictEqStr, resultEnvelope, jsonObject]
  · intro params env2 fetch2
    simp [mcpHandler, tryBlock, hi, hj, hmt, hm, strictEqStr]

/-- C16 (witness): two `initialize` requests with the same id, one with
`params` `{clientInfo:"x"}` and one without `params`, get the same reply. -/
theorem initialize_static_witness :
    mcpHandler sampleEnv stubFail
        { method := some (.str "initialize"),
          params := some (.obj [("clientInfo", .str "x")]),
          id := some (.num 2), jsonrpc := some (.str "2.0") }
      = mcpHandler sampleEnv stubOk
        { method := some (.str "initialize"), params := none, id := some (.num 2),
          jsonrpc := some (.str "2.0") } :=
  (initialize_static sampleEnv stubOk
    { method := some (.str "initialize"), params := none, id := some (.num 2),
      jsonrpc := some (.str "2.0") }
    (.num 2) rfl rfl rfl).2.2 (some (.obj [("clientInfo", .str "x")])) sampleEnv stubFail

/-! ## Classification and the call frame -/

/-- C17 (failing input): the envelope `{method:{toString:0}}` has no `id` and
a truthy `method`, so line 22 takes it as a notification; the template
literal of the log line 23 then throws, and the reply is status 500 with
error -32603 instead of 204 with no body. -/
theorem notification_log_throw_is_error :
    mcpHandler sampleEnv stubOk
        { method := some (.obj [("toString", .num 0)]), params := none, id := none,
          jsonrpc := none }
      = { reply := { status := 500,
                     body := some (.obj [("jsonrpc", .str "2.0"), ("id", .null),
                       ("error", .obj [("code", .num (-32603)),
                          ("message", .str "Cannot convert object to primitive value")])]) },
          calls := [] } := rfl

/-- Apart from a throwing log line, the envelope test is the three-way split
in the order of lines 22 and 27: without `id` and with a truthy `method` the
reply is 204 with no body; otherwise a falsy `jsonrpc`, a falsy `method` or
an absent `id` gives 400 with error -32600; and the envelopes left over are
exactly those with `jsonrpc` and `method` truthy and `id` present. -/
theorem classification_when_log_succeeds (env : Env) (fetch : OutboundCall → FetchOutcome)
    (e : Envelope) (t : String) (hlog : templateStr e.method = .ok t) :
    (e.id = none ∧ truthy e.method = true →
      mcpHandler env fetch e = { reply := { status := 204, body := none }, calls := [] }) ∧
    (¬ (e.id = none ∧ truthy e.method = true) →
      (truthy e.jsonrpc = false ∨ truthy e.method = false ∨ e.id = none) →
      mcpHandler env fetch e
        = { reply := { status := 400,
                       body := some (errorEnvelope (some (orNull e.id)) (-32600)
                         "Invalid Request") },
            calls := [] }) ∧
    (isRequest e = true ↔
      ¬ (e.id = none ∧ truthy e.method = true) ∧
      ¬ (truthy e.jsonrpc = false ∨ truthy e.method = false ∨ e.id = none)) := by
  refine ⟨?_, ?_, ?_⟩
  · rintro ⟨hid, hm⟩
    simp [mcpHandler, tryBlock, hid, hm, hlog]
  · intro hnot hmal
    have h1 : ¬ ((e.id.isNone && truthy e.method) = true) := by
      intro h
      simp only [Bool.and_eq_true, Option.isNone_iff_eq_none] at h
      exact hnot h
    have h2 : (!truthy e.jsonrpc || !truthy e.method || e.id.isNone) = true := by
      rcases hmal with h | h | h <;> simp [h]
    simp only [mcpHandler, tryBlock, if_neg h1, if_pos h2]
  · simp only [isRequest, Bool.and_eq_true]
    constructor
    · rintro ⟨⟨hj, hm⟩, hi⟩
      have hid : e.id ≠ none := by
        intro h
        simp [h] at hi
      refine ⟨fun h => hid h.1, ?_⟩
      rintro (h | h | h)
      · simp [hj] at h
      · simp [hm] at h
      · exact hid h
    · rintro ⟨-, h⟩
      simp only [not_or, Bool.not_eq_false] at h
      refine ⟨⟨h.1, h.2.1⟩, ?_⟩
      cases hid : e.id with
      | none => exact absurd hid h.2.2
      | some i => rfl

/-- A value strictly equal to a string literal is that string. -/
theorem eq_of_strictEqStr (o : Option JVal) (lit : String) (h : strictEqStr o lit = true) :
    o = some (.str lit) := by
  cases o with
  | none => simp [strictEqStr] at h
  | some v =>
    cases v with
    | str t => simp [strictEqStr] at h; rw [h]
    | _ => simp [strictEqStr] at h

/-- An outbound call is made only from the inner `try` of `tools/call`, after
the name test, the array test and the rendering have passed. -/
theorem conditions_of_call (env : Env) (fetch : OutboundCall → FetchOutcome) (e : Envelope)
    (h : (mcpHandler env fetch e).calls ≠ []) :
    isRequest e = true ∧ e.method = some (.str "tools/call") ∧
    prop (orEmptyObject e.params) "name" = some (.str "saveConversation") ∧
    ∃ ms html, messagesOf (orEmptyObject e.params) = some (.arr ms) ∧
      renderHtml ms = .ok html := by
  unfold mcpHandler at h
  split at h
  next out hout =>
    unfold tryBlock at hout
    split at hout
    · split at hout
      · cases hout
      · cases hout; exact absurd rfl h
    · split at hout
      · cases hout; exact absurd rfl h
      · next hnot hreq =>
        have hisreq : isRequest e = true := by
          simp only [Bool.or_eq_true, Bool.not_eq_true', not_or, Bool.not_eq_false,
            Option.isNone_iff_eq_none] at hreq
          simp only [isRequest, Bool.and_eq_true]
          refine ⟨⟨hreq.1.1, hreq.1.2⟩, ?_⟩
          cases hid : e.id with
          | none => exact absurd hid hreq.2
          | some i => rfl
        split at hout
        · cases hout; exact absurd rfl h
        · split at hout
          · cases hout; exact absurd rfl h
          · split at hout
            · next hcall =>
              refine ⟨hisreq, eq_of_strictEqStr _ _ hcall, ?_⟩
              unfold toolsCall at hout
              dsimp only at hout
              split at hout
              · split at hout
                · cases hout
                · cases hout; exact absurd rfl h
              · next hname =>
                simp only [Bool.not_eq_true', Bool.not_eq_false] at hname
                refine ⟨eq_of_strictEqStr _ _ hname, ?_⟩
                split at hout
                · next ms hms =>
                  cases hout
                  cases hr : renderHtml ms with
                  | ok html => exact ⟨ms, html, hms, hr⟩
                  | error err =>
                    simp [saveConversation, hr] at h
                · cases hout; exact absurd rfl h
            · split at hout
              · cases hout
              · cases hout; exact absurd rfl h
  next err herr => exact absurd rfl h

/-- C18: an outbound call is made if and only if the envelope passes the
envelope test, its method is "tools/call", `params.name` is
"saveConversation" and `params.arguments.messages` is an array whose
rendering does not throw. Then exactly one call is made, with `htmlDoc`
holding the rendered document under the filename `conversation.html` and the
content type `text/html`, and with `isMCP` equal to "true". In every other
case (notification, malformed envelope, initialize, tools/list, unknown
method, unknown tool, invalid arguments) no call is made. -/
theorem collaborator_call_frame (env : Env) (fetch : OutboundCall → FetchOutcome)
    (e : Envelope) :
    ((mcpHandler env fetch e).calls ≠ [] ↔
      (isRequest e = true ∧ e.method = some (.str "tools/call") ∧
        prop (orEmptyObject e.params) "name" = some (.str "saveConversation") ∧
        ∃ ms html, messagesOf (orEmptyObject e.params) = some (.arr ms) ∧
          renderHtml ms = .ok html)) ∧
    (∀ ms html, isRequest e = true → e.method = some (.str "tools/call") →
      prop (orEmptyObject e.params) "name" = some (.str "saveConversation") →
      messagesOf (orEmptyObject e.params) = some (.arr ms) → renderHtml ms = .ok html →
      (mcpHandler env fetch e).calls = [buildCall env html] ∧
      (buildCall env html).htmlDoc
        = { content := html, filename := "conversation.html", contentType := "text/html" } ∧
      (buildCall env html).isMCP = "true") := by
  have hmade : ∀ ms html, isRequest e = true → e.method = some (.str "tools/call") →
      prop (orEmptyObject e.params) "name" = some (.str "saveConversation") →
      messagesOf (orEmptyObject e.params) = some (.arr ms) → renderHtml ms = .ok html →
      (mcpHandler env fetch e).calls = [buildCall env html] := by
    intro ms html hreq hm hname hms hhtml
    obtain ⟨i, hi⟩ : ∃ i, e.id = some i := by
      simp only [isRequest, Bool.and_eq_true] at hreq
      cases hid : e.id with
      | none => simp [hid] at hreq
      | some i => exact ⟨i, rfl⟩
    have hp := orEmptyObject_of_prop e.params "name" _ hname
    rw [(saveConversation_call env fetch e i (orEmptyObject e.params) hreq hi hm hp hname).1
      ms hms]
    exact saveConversation_calls env fetch (some i) ms html hhtml
  refine ⟨⟨conditions_of_call env fetch e, ?_⟩, ?_⟩
  · rintro ⟨hreq, hm, hname, ms, html, hms, hhtml⟩
    rw [hmade ms html hreq hm hname hms hhtml]
    exact List.cons_ne_nil _ _
  · intro ms html hreq hm hname hms hhtml
    exact ⟨hmade ms html hreq hm hname hms hhtml, rfl, rfl⟩

/-- C18 (witness): the call made for `messages` `[{role:"user",
content:"hi"}]` is the single call with the rendered document. -/
theorem collaborator_call_frame_witness :
    (mcpHandler sampleEnv stubFail
        { method := some (.str "tools/call"),
          params := some (.obj [("name", .str "saveConversation"),
            ("arguments", .obj [("messages", .arr
              [.obj [("role", .str "user"), ("content", .str "hi")]])])]),
          id := some (.num 1), jsonrpc := some (.str "2.0") }).calls
      = [{ url := "https://archive.example/api/conversation", httpMethod := "POST",
           htmlDoc := { content := "<p><strong>user:</strong> hi</p>",
                        filename := "conversation.html", contentType := "text/html" },
           isMCP := "true" }] :=
  ((collaborator_call_frame sampleEnv stubFail
    { method := some (.str "tools/call"),
      params := some (.obj [("name", .str "saveConversation"),
        ("arguments", .obj [("messages", .arr
          [.obj [("role", .str "user"), ("content", .str "hi")]])])]),
      id := some (.num 1), jsonrpc := some (.str "2.0") }).2
    [.obj [("role", .str "user"), ("content", .str "hi")]]
    "<p><strong>user:</strong> hi</p>" rfl rfl rfl rfl rfl).1

/-! ## The outer catch -/

/-- The string conversion of a value that is absent or a string does not
throw. -/
theorem templateStr_of_string (o : Option JVal)
    (h : o = none ∨ ∃ s, o = some (.str s)) : ∃ t, templateStr o = .ok t := by
  rcases h with rfl | ⟨s, rfl⟩
  · exact ⟨_, rfl⟩
  · exact ⟨_, rfl⟩

/-- The error code of an error envelope is the code it was built with. -/
theorem errorCode_errorEnvelope (status : Nat) (i : JVal) (c : Int) (msg : String) :
    HttpReply.errorCode { status := status, body := some (errorEnvelope (some i) c msg) }
      = some (.num c) := rfl

/-- A result envelope has no error code. -/
theorem errorCode_resultEnvelope (status : Nat) (i r : JVal) :
    HttpReply.errorCode { status := status, body := some (resultEnvelope (some i) r) }
      = none := rfl

/-- A reply of one of the four kinds whose code is not -32603 has no error
code or one of -32600, -32601, -32602 and -32000. -/
theorem errorCode_of_replyKind (r : HttpReply) (hk : ReplyKind r)
    (hne : r.errorCode ≠ some (.num (-32603))) :
    r.errorCode = none ∨ r.errorCode = some (.num (-32600)) ∨
    r.errorCode = some (.num (-32601)) ∨ r.errorCode = some (.num (-32602)) ∨
    r.errorCode = some (.num (-32000)) := by
  cases hk with
  | noContent => exact Or.inl rfl
  | success i r => exact Or.inl rfl
  | clientError i c msg hc =>
    rw [errorCode_errorEnvelope]
    rcases hc with rfl | rfl | rfl
    · exact Or.inr (Or.inl rfl)
    · exact Or.inr (Or.inr (Or.inl rfl))
    · exact Or.inr (Or.inr (Or.inr (Or.inl rfl)))
  | serverError i c msg hc =>
    rw [errorCode_errorEnvelope] at hne ⊢
    rcases hc with rfl | rfl
    · exact Or.inr (Or.inr (Or.inr (Or.inr rfl)))
    · exact absurd rfl hne

/-- Error -32603 is sent only by the outer `catch`: a reply with which the
body of the outer `try` ends has another code, or none. -/
theorem tryBlock_not_internal (env : Env) (fetch : OutboundCall → FetchOutcome)
    (e : Envelope) (out : Outcome) (h : tryBlock env fetch e = .ok out) :
    out.reply.errorCode ≠ some (.num (-32603)) := by
  unfold tryBlock at h
  split at h
  · split at h
    · cases h
    · cases h; simp [HttpReply.errorCode, HttpReply.field]
  · split at h
    · cases h; rw [errorCode_errorEnvelope]; simp
    · next hnot hreq =>
      obtain ⟨i, hi⟩ : ∃ i, e.id = some i := by
        cases hid : e.id with
        | none => simp [hid] at hreq
        | some i => exact ⟨i, rfl⟩
      rw [hi] at h
      split at h
      · cases h; rw [errorCode_resultEnvelope]; simp
      · split at h
        · cases h; rw [errorCode_resultEnvelope]; simp
        · split at h
          · unfold toolsCall at h
            dsimp only at h
            split at h
            · split at h
              · cases h
              · cases h; rw [errorCode_errorEnvelope]; simp
            · split at h
              · cases h
                unfold saveConversation
                split
                · rw [internalErrorReply, errorCode_errorEnvelope]; simp
                · dsimp only
                  split
                  · rw [internalErrorReply, errorCode_errorEnvelope]; simp
                  · rw [errorCode_resultEnvelope]; simp
              · cases h; rw [errorCode_errorEnvelope]; simp
          · split at h
            · cases h
            · cases h; rw [errorCode_errorEnvelope]; simp

/-- C19: when `method` and `params.name` are each absent or a string, the
body of the outer `try` ends without throwing, whatever the collaborator
does (success, a status that is not a success, a thrown exception, a reply
that does not parse): the outer `catch` is not reached, the reply never has
error code -32603, and an error it has is one of -32600, -32601, -32602 and
-32000. -/
theorem outer_catch_unreachable (env : Env) (fetch : OutboundCall → FetchOutcome)
    (e : Envelope)
    (hm : e.method = none ∨ ∃ s, e.method = some (.str s))
    (hn : prop (orEmptyObject e.params) "name" = none ∨
      ∃ s, prop (orEmptyObject e.params) "name" = some (.str s)) :
    (∃ out, tryBlock env fetch e = .ok out ∧ mcpHandler env fetch e = out) ∧
    (mcpHandler env fetch e).reply.errorCode ≠ some (.num (-32603)) ∧
    ((mcpHandler env fetch e).reply.errorCode = none ∨
      (mcpHandler env fetch e).reply.errorCode = some (.num (-32600)) ∨
      (mcpHandler env fetch e).reply.errorCode = some (.num (-32601)) ∨
      (mcpHandler env fetch e).reply.errorCode = some (.num (-32602)) ∨
      (mcpHandler env fetch e).reply.errorCode = some (.num (-32000))) := by
  obtain ⟨tm, htm⟩ := templateStr_of_string _ hm
  obtain ⟨tn, htn⟩ := templateStr_of_string _ hn
  have hok : ∃ out, tryBlock env fetch e = .ok out := by
    unfold tryBlock
    rw [htm]
    split
    · exact ⟨_, rfl⟩
    · split
      · exact ⟨_, rfl⟩
      · split
        · exact ⟨_, rfl⟩
        · split
          · exact ⟨_, rfl⟩
          · split
            · unfold toolsCall
              dsimp only
              rw [htn]
              split
              · exact ⟨_, rfl⟩
              · split
                · exact ⟨_, rfl⟩
                · exact ⟨_, rfl⟩
            · exact ⟨_, rfl⟩
  obtain ⟨out, hout⟩ := hok
  have heq : mcpHandler env fetch e = out := by
    simp [mcpHandler, hout]
  have hne : (mcpHandler env fetch e).reply.errorCode ≠ some (.num (-32603)) := by
    rw [heq]
    exact tryBlock_not_internal env fetch e out hout
  exact ⟨⟨out, hout, heq⟩, hne,
    errorCode_of_replyKind _ (mcpHandler_replyKind env fetch e) hne⟩

/-- C19 (witness): a `tools/call` for "saveConversation" with a null message,
against a collaborator that answers 500, is answered with a code other than
-32603. -/
theorem outer_catch_unreachable_witness :
    (mcpHandler sampleEnv stubFail
        { method := some (.str "tools/call"),
          params := some (.obj [("name", .str "saveConversation"),
            ("arguments", .obj [("messages", .arr [.null])])]),
          id := some (.num 0), jsonrpc := some (.str "2.0") }).reply.errorCode
      ≠ some (.num (-32603)) :=
  (outer_catch_unreachable sampleEnv stubFail
    { method := some (.str "tools/call"),
      params := some (.obj [("name", .str "saveConversation"),
        ("arguments", .obj [("messages", .arr [.null])])]),
      id := some (.num 0), jsonrpc := some (.str "2.0") }
    (Or.inr ⟨"tools/call", rfl⟩) (Or.inr ⟨"saveConversation", rfl⟩)).2.1

end McpBridge
